import Mathlib

set_option maxHeartbeats 1000000

/-
Shallow embedding of src/main.py (Component Comparator AI, class
ComponentComparatorAI) together with proofs about the embedded code.

Modelling conventions:
  * Python strings are modelled by Lean String values over their character
    lists.  str.strip, str.lower and the whitespace class of the re module
    are modelled on the ASCII whitespace characters, and str.splitlines on
    the LF, CR and CRLF line breaks; the exotic Unicode cases of those
    Python functions are outside the model.
  * Fallible external calls (the generative model API, PyMuPDF, the file
    dialogs, json.loads) are passed in as explicit outcome values, and the
    Tk widget state that the handlers read or write is carried in an
    explicit record.
-/

/-- ASCII whitespace, the model of the Python whitespace class. -/
def pyWs (c : Char) : Bool :=
  c = ' ' || c = '\t' || c = '\n' || c = '\r' || c = '\u000B' || c = '\u000C'

/-- Model of str.strip on character lists. -/
def pyStripL (l : List Char) : List Char :=
  ((l.dropWhile pyWs).reverse.dropWhile pyWs).reverse

/-- Model of str.strip. -/
def pyStrip (s : String) : String := String.mk (pyStripL s.data)

/-- Model of str.lower. -/
def lowerStr (s : String) : String := String.mk (s.data.map Char.toLower)

/-- Model of str.split(sep) for a one-character separator. -/
def splitChar (sep : Char) : List Char → List (List Char)
  | [] => [[]]
  | c :: rest =>
    match splitChar sep rest with
    | [] => [[c]]
    | g :: gs => if c = sep then [] :: g :: gs else (c :: g) :: gs

/-- Model of str.splitlines (LF, CR and CRLF breaks); the accumulator holds
the current line reversed. -/
def splitlinesL : List Char → List Char → List (List Char)
  | [], acc => if acc.isEmpty then [] else [acc.reverse]
  | '\r' :: '\n' :: rest, acc => acc.reverse :: splitlinesL rest []
  | '\r' :: rest, acc => acc.reverse :: splitlinesL rest []
  | '\n' :: rest, acc => acc.reverse :: splitlinesL rest []
  | c :: rest, acc => splitlinesL rest (c :: acc)

/-- Model of str.splitlines. -/
def pySplitlines (s : String) : List String := (splitlinesL s.data []).map String.mk

/-- Model of response_text.split(chr(10)) used by the fallback parser. -/
def pySplitNL (s : String) : List String := (splitChar '\n' s.data).map String.mk

/-- Model of sep.join(strings). -/
def pyJoin (sep : String) : List String → String
  | [] => ""
  | [x] => x
  | x :: y :: rest => x ++ sep ++ pyJoin sep (y :: rest)

/-- line.count of the pipe character. -/
def countPipes (s : String) : Nat := s.data.countP (fun c => c = '|')

/-- line.startswith of the pipe character. -/
def startsWithPipe (s : String) : Bool := s.data.head? = some '|'

/-- line.endswith of the pipe character. -/
def endsWithPipe (s : String) : Bool := s.data.getLast? = some '|'

/-- The slice line from index 1 up to the last index, as characters. -/
def innerChars (s : String) : List Char := (s.data.drop 1).dropLast

/-- The cell texts of a pipe-delimited line: the slice between the outer
pipes, split on the pipe character, each cell stripped
(main.py lines 463 and 476 and 490). -/
def cellsOf (s : String) : List String :=
  (splitChar '|' (innerChars s)).map (fun l => String.mk (pyStripL l))

/-- One separator segment: optional whitespace, a nonempty run of colons
and dashes, optional whitespace (the repeated group of the separator
regular expression of main.py line 449). -/
def sepSegOK (l : List Char) : Bool :=
  match l.dropWhile pyWs with
  | [] => false
  | c :: rest =>
    (c = ':' || c = '-') &&
      ((c :: rest).dropWhile (fun d => d = ':' || d = '-')).all pyWs

/-- Model of re.fullmatch of the separator pattern of main.py line 449 on an
already stripped line: a pipe, then one or more separator segments each
closed by a pipe. -/
def isSeparatorLine (s : String) : Bool :=
  startsWithPipe s && endsWithPipe s && (splitChar '|' (innerChars s)).all sepSegOK

/-- The non-blank stripped lines paired with their original indices
(processed_lines_info of main.py lines 435 to 441). -/
def processedLinesAux (idx : Nat) : List String → List (String × Nat)
  | [] => []
  | line :: rest =>
    let t := pyStrip line
    if t = "" then processedLinesAux (idx + 1) rest
    else (t, idx) :: processedLinesAux (idx + 1) rest

/-- processed_lines_info for a whole input string. -/
def processedLines (s : String) : List (String × Nat) :=
  processedLinesAux 0 (pySplitlines s)

/-- The header and separator conditions of main.py lines 452 to 470 for a
candidate header line t followed by the line nt. -/
def pairOK (t nt : String) : Bool :=
  startsWithPipe t && endsWithPipe t && decide (2 ≤ countPipes t) &&
    isSeparatorLine nt &&
    decide ((cellsOf t).length = countPipes nt - 1) &&
    decide ((cellsOf t).length ≠ 0)

/-- The search loop of main.py lines 452 to 470: index of the first
processed line that together with its successor satisfies pairOK. -/
def findPairIndex : List (String × Nat) → Option Nat
  | [] => none
  | [_] => none
  | p :: q :: rest =>
    if pairOK p.1 q.1 then some 0
    else (findPairIndex (q :: rest)).map (· + 1)

/-- Whether the header and separator pair starts at processed index i. -/
def pairAtB (pl : List (String × Nat)) (i : Nat) : Bool :=
  match pl[i]?, pl[i+1]? with
  | some p, some q => pairOK p.1 q.1
  | _, _ => false

/-- A parsed markdown table (the dict of main.py line 519). -/
structure MdTable where
  headers : List String
  rows : List (List String)
deriving DecidableEq, Repr

/-- The row loop of main.py lines 483 to 499 over the processed line texts
after the separator: rows are collected while each line is pipe delimited
with numCols + 1 pipes; the padding and truncation fallback of lines 493
to 496 is kept although it cannot fire for such lines. -/
def scanRows (numCols : Nat) : List String → List (List String)
  | [] => []
  | t :: rest =>
    if startsWithPipe t && endsWithPipe t then
      if decide (countPipes t ≠ numCols + 1) then []
      else
        let cells := cellsOf t
        let cells' :=
          if decide (cells.length = numCols) then cells
          else if decide (cells.length < numCols) then
            cells ++ List.replicate (numCols - cells.length) ""
          else cells.take numCols
        cells' :: scanRows numCols rest
    else []

/-- Embedding of ComponentComparatorAI._parse_markdown_table
(main.py lines 432 to 519).  The index of the last processed table line is
the separator index plus the number of collected rows, since the row loop
advances that index by one for every appended row. -/
def parse_markdown_table (markdown_text : String) : Option MdTable × Nat :=
  let pl := processedLines markdown_text
  if pl.isEmpty then (none, 0)
  else
    match findPairIndex pl with
    | none => (none, 0)
    | some h =>
      let headers := cellsOf ((pl[h]?).getD ("", 0)).1
      let numCols := headers.length
      let rows := scanRows numCols ((pl.map Prod.fst).drop (h + 2))
      let lines_consumed := ((pl[h + 1 + rows.length]?).getD ("", 0)).2 + 1
      (some ⟨headers, rows⟩, lines_consumed)

/-- The match of the key and value regular expression of main.py line 526
on a stripped line: find the first colon that is preceded by at least one
character and followed by at least one character, and return the parts
before and after it.  The scan starts after the first character, which the
lazy key group always consumes. -/
def kvScan : List Char → Option (List Char × List Char)
  | [] => none
  | ':' :: rest => if rest.isEmpty then none else some ([], rest)
  | c :: rest => (kvScan rest).map (fun p => (c :: p.1, p.2))

/-- Split a stripped line at the colon chosen by the regular expression of
main.py line 526, if any. -/
def kvSplit : List Char → Option (List Char × List Char)
  | [] => none
  | c :: rest => (kvScan rest).map (fun p => (c :: p.1, p.2))

/-- Classification of one line inside _parse_implicit_table
(main.py lines 538 to 575). -/
inductive ImpLine where
  | blank
  | noMatch
  | invalidVal
  | row (key : String) (cells : List String)
deriving DecidableEq, Repr

/-- Classify one line for _parse_implicit_table: blank lines, lines that do
not match the key and value pattern, lines whose first value cell is
empty, and valid rows carrying the key and the comma-separated stripped
value cells. -/
def classifyImpLine (line : String) : ImpLine :=
  let ls := pyStripL line.data
  if ls.isEmpty then .blank
  else
    match kvSplit ls with
    | none => .noMatch
    | some (k, v) =>
      let cells := (splitChar ',' (pyStripL v)).map (fun c => String.mk (pyStripL c))
      match cells with
      | [] => .invalidVal
      | c0 :: _ =>
        if c0 = "" then .invalidVal
        else .row (String.mk (pyStripL k)) cells

/-- The collecting phase of the _parse_implicit_table loop, entered after
the first valid line fixed the expected number of value columns: blank
lines are skipped, a valid row with the expected column count is appended,
anything else ends the table. -/
def impScanRest (expected : Nat) : List String → List (List String)
  | [] => []
  | l :: rest =>
    match classifyImpLine l with
    | .blank => impScanRest expected rest
    | .row k cells =>
      if decide (cells.length = expected) then (k :: cells) :: impScanRest expected rest
      else []
    | _ => []

/-- The searching phase of the _parse_implicit_table loop: skip lines until
the first valid row, which fixes the expected value column count; returns
the collected rows and that count. -/
def impScanStart : List String → List (List String) × Nat
  | [] => ([], 0)
  | l :: rest =>
    match classifyImpLine l with
    | .row k cells => ((k :: cells) :: impScanRest cells.length rest, cells.length)
    | _ => impScanStart rest

/-- Embedding of ComponentComparatorAI._parse_implicit_table
(main.py lines 521 to 589). -/
def parse_implicit_table (text_lines : List String) : Option MdTable :=
  if text_lines.length < 2 then none
  else
    let scanned := impScanStart text_lines
    if 2 ≤ scanned.1.length then
      some ⟨"Parameter" :: (List.range scanned.2).map (fun i => "Value " ++ toString (i + 1)),
            scanned.1⟩
    else none

/-- Normalisation str(cell).strip().lower() used throughout the redundancy
check. -/
def normCell (s : String) : String := lowerStr (pyStrip s)

/-- needle appears as a contiguous run at the head of hay. -/
def startsL : List Char → List Char → Bool
  | [], _ => true
  | _ :: _, [] => false
  | a :: as, b :: bs => a = b && startsL as bs

/-- needle appears as a contiguous run somewhere in hay (the Python
substring test). -/
def subL (needle : List Char) : List Char → Bool
  | [] => needle.isEmpty
  | c :: rest => startsL needle (c :: rest) || subL needle rest

/-- Model of the Python substring containment test needle in hay. -/
def strSub (needle hay : String) : Bool := subL needle.data hay.data

/-- Model of s.startswith(p). -/
def pyStartsWith (s p : String) : Bool := startsL p.data s.data

/-- Model of s.endswith(p). -/
def pyEndsWith (s p : String) : Bool := startsL p.data.reverse s.data.reverse

/-- The headed-section test of main.py lines 674 to 676 computed on the
stripped lowered first line. -/
def headedFirstLine (line : String) : Bool :=
  let fl := lowerStr (pyStrip line)
  (pyStartsWith fl "**" && pyEndsWith fl "**" && decide (4 < fl.length)) ||
    (pyStartsWith fl "## " && decide (3 < fl.length))

/-- The per-line redundancy test of main.py lines 742 to 761: the
normalised line is a member of the comparison basis, or overlaps a
nonempty basis entry as a substring in either direction, or (for the
general basis only) splits at the first colon into a key found among the
normalised headers or cells and a value found among the normalised
cells. -/
def lineRedundant (basis headersN cellsN : List String) (focusedIsNone : Bool)
    (line : String) : Bool :=
  let nl := lowerStr (pyStrip line)
  if basis.contains nl then true
  else if basis.any (fun tv => decide (tv ≠ "") && (strSub tv nl || strSub nl tv)) then true
  else if focusedIsNone && nl.data.contains ':' then
    let key_norm := pyStrip (String.mk (nl.data.takeWhile (fun c => c ≠ ':')))
    let val_norm := pyStrip (String.mk ((nl.data.dropWhile (fun c => c ≠ ':')).drop 1))
    (headersN.contains key_norm && cellsN.contains val_norm) ||
      (cellsN.contains key_norm && cellsN.contains val_norm)
  else false

/-- Embedding of
ComponentComparatorAI._is_text_segment_redundant_with_table
(main.py lines 664 to 768).  The first matching row lookup models the
Python loop over rows, and a structurally empty row is treated as not
matching where Python would fault on indexing it. -/
def is_text_segment_redundant_with_table (text_lines : List String)
    (table_data : MdTable) : Bool :=
  let actual_text_lines := text_lines.filter (fun l => decide (pyStrip l ≠ ""))
  match actual_text_lines with
  | [] => false
  | first :: _ =>
    let is_potentially_headed_section := headedFirstLine first
    if !is_potentially_headed_section && decide (7 < actual_text_lines.length) then false
    else
      let table_headers_normalized := table_data.headers.map normCell
      let table_all_cells_normalized := table_data.rows.flatten.map normCell
      if table_all_cells_normalized.isEmpty && table_headers_normalized.isEmpty then false
      else
        let f0 := pyStrip first
        let potential_section_title : Option String :=
          if pyStartsWith f0 "**" && pyEndsWith f0 "**" && decide (4 < f0.length) then
            some (lowerStr (pyStrip ((f0.drop 2).dropRight 2)))
          else if pyStartsWith f0 "## " && decide (3 < f0.length) then
            some (lowerStr (pyStrip (f0.drop 3)))
          else none
        let mfr : Bool × Option (List String) × List String :=
          match potential_section_title with
          | none => (false, none, actual_text_lines)
          | some title =>
            if table_headers_normalized.contains title then
              let col_idx := (table_data.headers.findIdx? (fun h => decide (normCell h = title))).getD 0
              let focused := table_data.rows.filterMap (fun row =>
                match row[col_idx]? with
                | some c => if decide (pyStrip c ≠ "") then some (normCell c) else none
                | none => none)
              (true, some focused, actual_text_lines.drop 1)
            else
              let firstRowNonempty : Bool :=
                match table_data.rows with
                | [] => false
                | r0 :: _ => !r0.isEmpty
              if firstRowNonempty then
                match table_data.rows.find? (fun row => decide (row.head?.map normCell = some title)) with
                | some row =>
                  (true,
                   some ((row.drop 1).filterMap (fun c =>
                     if decide (pyStrip c ≠ "") then some (normCell c) else none)),
                   actual_text_lines.drop 1)
                | none => (false, none, actual_text_lines)
              else (false, none, actual_text_lines)
        let is_section_header_matched := mfr.1
        let focused := mfr.2.1
        let lines_to_check := mfr.2.2
        let contentAll := lines_to_check.filter (fun l => decide (pyStrip l ≠ ""))
        if is_section_header_matched && contentAll.isEmpty then true
        else if decide (7 < contentAll.length) && !is_section_header_matched then false
        else
          let comparison_basis := focused.getD table_all_cells_normalized
          if comparison_basis.isEmpty && is_section_header_matched then false
          else
            let content := contentAll.take 7
            if content.isEmpty then false
            else
              let cnt := content.countP
                (lineRedundant comparison_basis table_headers_normalized
                  table_all_cells_normalized focused.isNone)
              let threshold : Nat :=
                if is_section_header_matched && focused.isSome then 51 else 75
              decide (threshold * content.length ≤ cnt * 100)

/-- One display segment of a formatted AI response. -/
inductive RespSegment where
  | table (t : MdTable)
  | text (content : String)
deriving DecidableEq, Repr

/-- Embedding of ComponentComparatorAI._finalize_text_block
(main.py lines 770 to 791). -/
def finalize_text_block (block_lines : List String)
    (last_table : Option MdTable) : Option RespSegment :=
  if (block_lines.filter (fun l => decide (pyStrip l ≠ ""))).isEmpty then none
  else
    match parse_implicit_table block_lines with
    | some t => some (.table t)
    | none =>
      let collected_text := pyStrip (pyJoin "\n" block_lines)
      if decide (collected_text ≠ "") then
        let is_redundant :=
          match last_table with
          | some tbl => is_text_segment_redundant_with_table block_lines tbl
          | none => false
        if !is_redundant then some (.text collected_text) else none
      else none

/-- The index advance of one iteration of the scanning loop of
_format_ai_response (main.py lines 800 to 835): the consumed line count
when a pipe table starts at line i, and one otherwise. -/
def loopAdvance (all_lines : List String) (i : Nat) : Nat :=
  match parse_markdown_table (pyJoin "\n" (all_lines.drop i)) with
  | (some _, n) => n
  | (none, _) => 1

/-- Finalizing the accumulated text block inside the loop
(main.py lines 806 to 813 and 826 to 832): appends the resulting segment
if any, and lets an implicit table become the reference table for later
redundancy checks. -/
def flushBlock (block : List String) (segs : List RespSegment)
    (last : Option MdTable) : List RespSegment × Option MdTable :=
  if block.isEmpty then (segs, last)
  else
    match finalize_text_block block last with
    | none => (segs, last)
    | some seg =>
      (segs ++ [seg],
       match seg with
       | .table t => some t
       | .text _ => last)

/-- The scanning loop of ComponentComparatorAI._format_ai_response
(main.py lines 800 to 842): remaining is all_lines from the current index
on, block the accumulated text block, segs the segments built so far and
last the table used for redundancy checks.  The loop terminates because a
parsed table always consumes at least one line. -/
def formatGo : List String → List String → List RespSegment → Option MdTable →
    List RespSegment
  | [], block, segs, last =>
    if block.isEmpty then segs
    else segs ++ (finalize_text_block block last).toList
  | l :: rest, block, segs, last =>
    match h : parse_markdown_table (pyJoin "\n" (l :: rest)) with
    | (some tbl, n) =>
      let flushed := flushBlock block segs last
      formatGo ((l :: rest).drop n) [] (flushed.1 ++ [.table tbl]) (some tbl)
    | (none, _) =>
      if pyStrip l = "" then
        let flushed := flushBlock block segs last
        formatGo rest [] flushed.1 flushed.2
      else formatGo rest (block ++ [l]) segs last
termination_by remaining _ _ _ => remaining.length
decreasing_by
  · have hn : 0 < n := by
      unfold parse_markdown_table at h
      dsimp only at h
      split at h
      · exact absurd (congrArg Prod.fst h) (by simp)
      · split at h
        · exact absurd (congrArg Prod.fst h) (by simp)
        · have h2 := congrArg Prod.snd h
          simp only at h2
          omega
    simp only [List.length_drop, List.length_cons]
    omega
  · simp [Nat.lt_succ_self]
  · simp [Nat.lt_succ_self]

/-- Embedding of ComponentComparatorAI._format_ai_response
(main.py lines 793 to 846). -/
def format_ai_response (text_response : String) : List RespSegment :=
  formatGo (pySplitlines text_response) [] [] none

/-- A Python value stored in the parsed-analysis dict: either a string or
some non-string value carried with its Python str() rendering. -/
inductive PyVal where
  | str (v : String)
  | nonstr (rep : String)
deriving DecidableEq, Repr

/-- Python str() of a stored value. -/
def PyVal.toStr : PyVal → String
  | .str v => v
  | .nonstr rep => rep

/-- The outcome of json.loads on the cleaned response text: a JSON object
(a Python dict), some other valid JSON value (on which the subsequent
attribute access would raise AttributeError), or json.JSONDecodeError. -/
inductive JsonOutcome where
  | obj (entries : List (String × PyVal))
  | nondict
  | decodeError
deriving DecidableEq, Repr

/-- The dict built by _parse_initial_analysis_response
(main.py lines 250 to 257). -/
structure AnalysisData where
  component1_type : PyVal := .str "Unknown"
  component2_type : PyVal := .str "Unknown"
  functionally_similar : PyVal := .str "Unknown"
  is_similar_flag : Bool := false
  mfg_pn1 : PyVal := .str "Not Found"
  mfg_pn2 : PyVal := .str "Not Found"
deriving DecidableEq, Repr

/-- The markdown fence stripping of main.py lines 261 to 269, including
the final strip applied before json.loads. -/
def stripFences (response_text : String) : String :=
  let c := pyStrip response_text
  let c := if pyStartsWith c "```json" then c.drop 7 else c
  let c := if pyStartsWith c "```" then c.drop 3 else c
  let c := if pyEndsWith c "```" then c.dropRight 3 else c
  pyStrip c

/-- The similarity test of main.py line 274: the value is a string whose
lowering starts with yes, or which starts with the Chinese yes
character. -/
def similarYes (v : PyVal) : Bool :=
  match v with
  | .str t => pyStartsWith (lowerStr t) "yes" || pyStartsWith t "是"
  | .nonstr _ => false

/-- line.split at the first colon, second part, stripped
(the repeated expression of main.py lines 287 to 298). -/
def afterFirstColonStrip (line : String) : String :=
  pyStrip (String.mk ((line.data.dropWhile (fun c => c ≠ ':')).drop 1))

/-- One iteration of the fallback line loop of main.py lines 285 to 298. -/
def fallbackStep (d : AnalysisData) (line : String) : AnalysisData :=
  if pyStartsWith line "Component1_Type:" then
    { d with component1_type := .str (afterFirstColonStrip line) }
  else if pyStartsWith line "Component2_Type:" then
    { d with component2_type := .str (afterFirstColonStrip line) }
  else if pyStartsWith line "Functionally_Similar:" then
    let t := afterFirstColonStrip line
    { d with functionally_similar := .str t,
             is_similar_flag :=
               d.is_similar_flag || (pyStartsWith (lowerStr t) "yes" || pyStartsWith t "是") }
  else if pyStartsWith line "MFG_PN1:" then
    { d with mfg_pn1 := .str (afterFirstColonStrip line) }
  else if pyStartsWith line "MFG_PN2:" then
    { d with mfg_pn2 := .str (afterFirstColonStrip line) }
  else d

/-- Embedding of ComponentComparatorAI._parse_initial_analysis_response
(main.py lines 248 to 299).  jsonParse stands for json.loads on the
cleaned text.  A non-dict JSON value makes the Python code raise
AttributeError out of the function, modelled as none; otherwise the built
dict is returned. -/
def parse_initial_analysis_response (jsonParse : String → JsonOutcome)
    (response_text : String) : Option AnalysisData :=
  match jsonParse (stripFences response_text) with
  | .obj entries =>
    let sim := (entries.lookup "Functionally_Similar").getD (.str "Unknown")
    some { component1_type := (entries.lookup "Component1_Type").getD (.str "Unknown"),
           component2_type := (entries.lookup "Component2_Type").getD (.str "Unknown"),
           functionally_similar := sim,
           is_similar_flag := similarYes sim,
           mfg_pn1 := (entries.lookup "MFG_PN1").getD (.str "Not Found"),
           mfg_pn2 := (entries.lookup "MFG_PN2").getD (.str "Not Found") }
  | .nondict => none
  | .decodeError => some ((pySplitNL response_text).foldl fallbackStep {})

/-- The Python exceptions distinguished by the error handlers of
send_to_ai and send_user_query; other carries the str() rendering of any
further exception.  The named constructors stand for the google api_core
and generativeai exception classes, each carried with a fixed str()
rendering. -/
inductive PyExc where
  | permissionDenied
  | unauthenticated
  | invalidArgument
  | valueError
  | blockedPromptException
  | stopCandidateException
  | notFound
  | other (msg : String)
deriving DecidableEq, Repr

/-- Modelled str(e) of an exception. -/
def PyExc.toStr : PyExc → String
  | .permissionDenied => "403 Permission denied"
  | .unauthenticated => "401 Unauthenticated"
  | .invalidArgument => "400 Invalid argument"
  | .valueError => "ValueError"
  | .blockedPromptException => "BlockedPromptException"
  | .stopCandidateException => "StopCandidateException"
  | .notFound => "404 Not found"
  | .other msg => msg

/-- The isinstance test of main.py lines 1151 and 1513: exceptions that
clear api_key_configured. -/
def keyClass : PyExc → Bool
  | .permissionDenied | .unauthenticated => true
  | _ => false

/-- The isinstance test of main.py lines 1152 and 1514: exceptions that
reset the model, the chat session and the AI history. -/
def resetClass : PyExc → Bool
  | .invalidArgument | .valueError | .blockedPromptException
  | .stopCandidateException | .notFound | .permissionDenied => true
  | _ => false

/-- Outcome of model.generate_content in send_to_ai: an exception, a
response whose prompt_feedback carries a block reason, a response without
candidates or text, or a response text. -/
inductive GenOutcome where
  | raises (e : PyExc)
  | blocked (reason : String)
  | emptyResponse
  | ok (text : String)
deriving DecidableEq, Repr

/-- Outcome of chat_session.send_message in send_user_query; blocked
content surfaces there as an exception. -/
inductive ChatOutcome where
  | raises (e : PyExc)
  | ok (text : String)
deriving DecidableEq, Repr

/-- Outcome of reading a PDF with fitz in extract_text_from_pdf. -/
inductive PdfTextOutcome where
  | ok (text : String)
  | err (msg : String)
deriving DecidableEq, Repr

/-- Outcome of filedialog.asksaveasfilename in download_history: an
exception, the empty return of a cancelled dialog, or a chosen path. -/
inductive DialogOutcome where
  | raises (msg : String)
  | cancelled
  | chosen (filepath : String)
deriving DecidableEq, Repr

/-- The mutable state of ComponentComparatorAI that the embedded handlers
read or write: the conversation log (role and content pairs), the AI
history, the credential and model flags, the part-number variables, the
pending user input and image, the enabled state of the relevant widgets,
and a trace of the remote generative calls recording the timeout passed in
the request options of each call (none when no request options are
passed). -/
structure AppState where
  log : List (String × String) := []
  aiHistory : List (String × String) := []
  api_key_configured : Bool := false
  model : Option String := none
  chat_session : Bool := false
  send_enabled : Bool := false
  entry_enabled : Bool := false
  start_enabled : Bool := false
  mfg_pn_1 : String := ""
  mfg_pn_2 : String := ""
  user_input : String := ""
  pending_image : Option String := none
  calls : List (Option Nat) := []
deriving DecidableEq, Repr

/-- Embedding of ComponentComparatorAI.update_conversation_history
(main.py lines 929 to 1001): appends the raw message with its role to
conversation_log.  The rendering of the message into the transcript widget
(which for the ai role goes through format_ai_response) is display only
and is not part of the modelled state. -/
def update_conversation_history (st : AppState) (message : String) (role : String) :
    AppState :=
  { st with log := st.log ++ [(role, message)] }

/-- Embedding of ComponentComparatorAI._update_ui_for_ai_status
(main.py lines 1003 to 1011): the two optional arguments override the
stored flags, and the Send button and the user input entry are enabled
exactly when both effective flags hold. -/
def update_ui_for_ai_status (st : AppState) (api_key_arg model_arg : Option Bool) :
    AppState :=
  let is_api_key_ready := api_key_arg.getD st.api_key_configured
  let is_model_ready := model_arg.getD st.model.isSome
  let can_perform_ai_ops := is_api_key_ready && is_model_ready
  { st with send_enabled := can_perform_ai_ops, entry_enabled := can_perform_ai_ops }

/-- Embedding of ComponentComparatorAI._configure_ai
(main.py lines 1013 to 1019).  env models os.environ.get; configure_ok
models whether genai.configure succeeds.  A missing or empty variable only
prints a debug line; a configure exception appends an error line.  The
finally block refreshes the widget state. -/
def configure_ai (env : String → Option String) (configure_ok : Bool)
    (st : AppState) : AppState :=
  let st1 :=
    match env "GOOGLE_API_KEY" with
    | none => { st with api_key_configured := false }
    | some api_key =>
      if api_key = "" then { st with api_key_configured := false }
      else if configure_ok then { st with api_key_configured := true }
      else
        update_conversation_history { st with api_key_configured := false }
          "System: Error configuring AI SDK: configure failed" "error"
  update_ui_for_ai_status st1 (some st1.api_key_configured) (some st1.model.isSome)

/-- Embedding of ComponentComparatorAI.extract_text_from_pdf
(main.py lines 1339 to 1345).  The path string stands for its own
basename. -/
def extract_text_from_pdf (file_exists : Bool) (pdf : PdfTextOutcome)
    (filepath : String) (st : AppState) : AppState × String :=
  if filepath = "" || !file_exists then
    (update_conversation_history st
      ("System: PDF not found: " ++ (if filepath = "" then "Unknown" else filepath)) "error",
     "")
  else
    let st := update_conversation_history st
      ("System: Extracting text from " ++ filepath ++ "...") "system"
    match pdf with
    | .ok text =>
      (update_conversation_history st
        ("System: Text extraction OK: " ++ filepath ++ ".") "system", text)
    | .err m =>
      (update_conversation_history st
        ("System: Error extracting text from " ++ filepath ++ ": " ++ m) "error", "")

/-- The except branch of send_to_ai (main.py lines 1508 to 1518)
followed by the finally block: log the error, record it in the AI history,
disable the comparison button, drop the credential flag for permission
errors, reset the model for the reset class, and return the AI Error
string. -/
def sendToAiExcept (active_model_name : String) (e : PyExc) (st : AppState) :
    AppState × Option String :=
  let st := update_conversation_history st
    ("System: Error with AI (" ++ active_model_name ++ "): " ++ e.toStr) "error"
  let st := { st with aiHistory := st.aiHistory ++ [("model", "Error: " ++ e.toStr)] }
  let st := { st with start_enabled := false }
  let st := if keyClass e then { st with api_key_configured := false } else st
  let st :=
    if resetClass e then
      let st := update_conversation_history st
        ("System: Resetting model (" ++ active_model_name ++ ") due to error.") "system"
      { st with model := none, chat_session := false, aiHistory := [] }
    else st
  (update_ui_for_ai_status st none none, some ("AI Error: " ++ e.toStr))

/-- The is_initial_analysis block of send_to_ai (main.py lines 1472 to
1506): clear the chat session, parse the response (a non-dict JSON value
raises AttributeError into the except branch), log the parsed fields, set
the part number variables, and enable the comparison button only for a
similar pair with a clean response.  The result is the updated state, or
the exception carried to the except branch. -/
def initialAnalysisPost (jsonParse : String → JsonOutcome) (raw : String)
    (st : AppState) : AppState ⊕ (AppState × PyExc) :=
  let st := { st with chat_session := false }
  match parse_initial_analysis_response jsonParse raw with
  | none => .inr (st, .other "AttributeError: no attribute get")
  | some parsed_info =>
    let st := update_conversation_history st "System: Initial Analysis Parsed Data:" "system"
    let st := update_conversation_history st
      ("  Component 1 Type: " ++ parsed_info.component1_type.toStr) "system"
    let st := update_conversation_history st
      ("  Component 2 Type: " ++ parsed_info.component2_type.toStr) "system"
    let st := update_conversation_history st
      ("  Functionally Similar: " ++ parsed_info.functionally_similar.toStr) "system"
    let st := { st with mfg_pn_1 :=
      if parsed_info.mfg_pn1 ≠ .str "Not Found" then parsed_info.mfg_pn1.toStr else "" }
    let st := update_conversation_history st
      ("  MFG P/N 1 set to: " ++ (if st.mfg_pn_1 = "" then "Not Found" else st.mfg_pn_1)) "system"
    let st := { st with mfg_pn_2 :=
      if parsed_info.mfg_pn2 ≠ .str "Not Found" then parsed_info.mfg_pn2.toStr else "" }
    let st := update_conversation_history st
      ("  MFG P/N 2 set to: " ++ (if st.mfg_pn_2 = "" then "Not Found" else st.mfg_pn_2)) "system"
    if parsed_info.is_similar_flag && !(strSub "AI Error" raw || strSub "empty/no content" raw) then
      let st := { st with start_enabled := true }
      .inl (update_conversation_history st
        "System: Components appear functionally similar. Start Detailed Comparison enabled." "system")
    else
      let st := { st with start_enabled := false }
      .inl (update_conversation_history st
        "System: Components may not be functionally similar or analysis incomplete. Detailed comparison not enabled." "system")

/-- The tail shared by the non-raising response branches of send_to_ai
(main.py lines 1472 to 1507 and the finally block): run the initial
analysis post-processing when requested, route an exception from it into
the except branch, refresh the widget state and return the raw text. -/
def sendToAiFinish (jsonParse : String → JsonOutcome) (active_model_name raw : String)
    (is_initial_analysis : Bool) (st : AppState) : AppState × Option String :=
  if is_initial_analysis then
    match initialAnalysisPost jsonParse raw st with
    | .inl s => (update_ui_for_ai_status s none none, some raw)
    | .inr se => sendToAiExcept active_model_name se.2 se.1
  else (update_ui_for_ai_status st none none, some raw)

/-- Embedding of ComponentComparatorAI.send_to_ai
(main.py lines 1431 to 1518).  outcome models the one
model.generate_content call, which passes request_options with timeout 600
and is recorded in the call trace; the prompt assembly of lines 1436 to
1448 only edits the prompt parts and is not part of the modelled state.
The returned value is None for a missing model and the raw or error text
otherwise. -/
def send_to_ai (jsonParse : String → JsonOutcome) (outcome : GenOutcome)
    (is_initial_analysis : Bool) (user_prompt_for_history : Option String)
    (st : AppState) : AppState × Option String :=
  match st.model with
  | none => (update_conversation_history st "System: AI model N/A." "error", none)
  | some active_model_name =>
    let st := { st with send_enabled := false, entry_enabled := false, start_enabled := false }
    let st := update_conversation_history st
      ("System: Sending to AI (" ++ active_model_name ++ ")... May take time.") "system"
    let st :=
      match is_initial_analysis, user_prompt_for_history with
      | true, some up => { st with aiHistory := st.aiHistory ++ [("user", up)] }
      | _, _ => st
    let st := { st with calls := st.calls ++ [some 600] }
    match outcome with
    | .raises e => sendToAiExcept active_model_name e st
    | .blocked reason =>
      let raw := "AI Error - Prompt was blocked. Reason: " ++ reason
      let st := update_conversation_history st ("System: " ++ raw) "error"
      let st := { st with aiHistory := st.aiHistory ++ [("model", raw)] }
      sendToAiFinish jsonParse active_model_name raw is_initial_analysis st
    | .emptyResponse =>
      let raw := "AI response empty/no content."
      let st := update_conversation_history st
        ("System: AI (" ++ active_model_name ++ "): " ++ raw) "system"
      let st := { st with aiHistory := st.aiHistory ++ [("model", raw)] }
      sendToAiFinish jsonParse active_model_name raw is_initial_analysis st
    | .ok text =>
      let st := update_conversation_history st
        ("AI (" ++ active_model_name ++ "): " ++ text) "ai"
      let st := { st with aiHistory := st.aiHistory ++ [("model", text)] }
      sendToAiFinish jsonParse active_model_name text is_initial_analysis st

/-- The try block of send_user_query after the user message is logged
(main.py lines 1105 to 1154): disable the widgets, start the chat session
if needed (a start failure logs an error and returns through the finally
block), record the user turn, make the send_message call (no request
options, recorded as none in the call trace), and handle the response or
the except branch; the finally block refreshes the widget state. -/
def sendUserQueryCore (start_chat_ok : Bool) (outcome : ChatOutcome)
    (active_model_name : String) (log_message : String) (image_sent : Bool)
    (st : AppState) : AppState :=
  let st := { st with send_enabled := false, entry_enabled := false }
  if !st.chat_session && !start_chat_ok then
    let st := update_conversation_history st
      ("System: Starting new chat with " ++ active_model_name ++ "...") "system"
    let st := update_conversation_history st
      "System: Error starting chat: start_chat failed" "error"
    update_ui_for_ai_status st none none
  else
    let st :=
      if !st.chat_session then
        let st := update_conversation_history st
          ("System: Starting new chat with " ++ active_model_name ++ "...") "system"
        { st with chat_session := true }
      else st
    let st := { st with aiHistory := st.aiHistory ++ [("user", log_message)] }
    let st := update_conversation_history st
      ("System: Sending to AI (" ++ active_model_name ++ ")...") "system"
    let st := { st with calls := st.calls ++ [none] }
    match outcome with
    | .raises e =>
      let st := update_conversation_history st
        ("System: Error with AI (" ++ active_model_name ++ "): " ++ e.toStr) "error"
      let st := if keyClass e then { st with api_key_configured := false } else st
      let st :=
        if resetClass e then
          let st := update_conversation_history st
            ("System: Resetting model (" ++ active_model_name ++ ") due to error.") "system"
          { st with model := none, chat_session := false, aiHistory := [] }
        else st
      update_ui_for_ai_status st none none
    | .ok text =>
      let st := { st with aiHistory := st.aiHistory ++ [("model", text)] }
      let st := update_conversation_history st
        ("AI (" ++ active_model_name ++ "): " ++ text) "ai"
      let st := if image_sent then { st with pending_image := none } else st
      update_ui_for_ai_status st none none

/-- Embedding of ComponentComparatorAI.send_user_query
(main.py lines 1074 to 1154).  init_model models self._initialize_model
(state change and success flag), start_chat_ok the chat_session start, and
outcome the one chat_session.send_message call, which passes no request
options and so no timeout, recorded as none in the call trace. -/
def send_user_query (init_model : AppState → AppState × Bool)
    (start_chat_ok : Bool) (outcome : ChatOutcome) (st : AppState) : AppState :=
  let guarded :=
    if st.model.isNone || !st.api_key_configured then init_model st
    else (st, true)
  if !guarded.2 then guarded.1
  else
    let st := guarded.1
    match st.model with
    | none => update_conversation_history st "System: AI Model N/A." "error"
    | some active_model_name =>
      let user_text := pyStrip st.user_input
      let st := { st with user_input := "" }
      match st.pending_image with
      | some image_name =>
        let log_message := user_text ++ " [Image: " ++ image_name ++ "]"
        let st := update_conversation_history st ("User: " ++ log_message) "user"
        sendUserQueryCore start_chat_ok outcome active_model_name log_message true st
      | none =>
        if user_text ≠ "" then
          let st := update_conversation_history st ("User: " ++ user_text) "user"
          sendUserQueryCore start_chat_ok outcome active_model_name user_text false st
        else update_conversation_history st "System: Cannot send empty message." "system"

/-- Embedding of ComponentComparatorAI.download_history
(main.py lines 1156 to 1302).  dialog models the save dialog, save_ok the
document build and save.  The document content is assembled from the log
through format_ai_response for display only; the modelled effect is the
line appended to the conversation log. -/
def download_history (dialog : DialogOutcome) (save_ok : Bool) (st : AppState) :
    AppState :=
  if st.log.isEmpty then
    update_conversation_history st "System: History empty. Nothing to download." "system"
  else
    match dialog with
    | .raises m =>
      update_conversation_history st ("System: Error opening save dialog: " ++ m) "error"
    | .cancelled =>
      update_conversation_history st "System: Download cancelled by user." "system"
    | .chosen filepath =>
      if save_ok then
        update_conversation_history st
          ("System: Conversation history downloaded to " ++ filepath) "system"
      else
        update_conversation_history st
          "System: Error during history download: save failed" "error"

/-- The on-disk state touched by clear_all: whether the temp_images
directory exists and the files inside it. -/
structure TempDirFS where
  tempDirExists : Bool
  tempImages : List String
deriving DecidableEq, Repr

/-- Embedding of ComponentComparatorAI._create_temp_image_dir
(main.py lines 107 to 110): create the directory only when it does not
exist.  makedirs_ok models the os.makedirs call; its OSError is caught,
leaving the directory absent (the error line that handler appends to the
transcript is outside this filesystem record). -/
def create_temp_image_dir (makedirs_ok : Bool) (fs : TempDirFS) : TempDirFS :=
  if fs.tempDirExists then fs
  else if makedirs_ok then { tempDirExists := true, tempImages := [] }
  else fs

/-- The temp_images effect of ComponentComparatorAI.clear_all
(main.py lines 1304 to 1317): only when clear_files is true, delete the
directory tree if it exists (rmtree_ok models the shutil.rmtree call,
whose OSError is caught at line 1316 and leaves the directory and its
files in place) and then call _create_temp_image_dir; the remaining body
of clear_all resets widget and session state and does not touch the
directory. -/
def clear_all_tempdir (clear_files rmtree_ok makedirs_ok : Bool)
    (fs : TempDirFS) : TempDirFS :=
  if clear_files then
    let fs1 :=
      if fs.tempDirExists then
        if rmtree_ok then { tempDirExists := false, tempImages := [] } else fs
      else fs
    create_temp_image_dir makedirs_ok fs1
  else fs

/-- Modelled from the wording of claim C3, not from the source: a block is
redundant when at least 75 percent (51 percent when its first line is a
bold or heading line matching a table header or a first-column value) of
its first seven non-blank lines are equal to, are substrings of, or
contain a cell of the table. -/
def redundant_claim_C3 (text_lines : List String) (tbl : MdTable) : Bool :=
  let content := (text_lines.filter (fun l => decide (pyStrip l ≠ ""))).take 7
  match content with
  | [] => false
  | first :: _ =>
    let cells := tbl.rows.flatten.map normCell
    let f0 := pyStrip first
    let isBold := pyStartsWith f0 "**" && pyEndsWith f0 "**" && decide (4 < f0.length)
    let isHeading := pyStartsWith f0 "## " && decide (3 < f0.length)
    let headed :=
      (isBold || isHeading) &&
        (let ttl :=
          if isBold then lowerStr (pyStrip ((f0.drop 2).dropRight 2))
          else lowerStr (pyStrip (f0.drop 3))
        (tbl.headers.map normCell).contains ttl ||
          ((tbl.rows.filterMap List.head?).map normCell).contains ttl)
    let matchesCell := fun (line : String) =>
      let nl := lowerStr (pyStrip line)
      cells.any (fun c => decide (c = nl) || strSub nl c || strSub c nl)
    let threshold : Nat := if headed then 51 else 75
    decide (threshold * content.length ≤ (content.countP matchesCell) * 100)

example : pyStrip "  a b\t " = "a b" := by decide
example : pySplitlines "a\r\nb\n\nc" = ["a", "b", "", "c"] := by decide
example : pySplitlines "a\n" = ["a"] := by decide
example : cellsOf "| a | b |" = ["a", "b"] := by decide
example : isSeparatorLine "|---|:---:|" = true := by decide
example : isSeparatorLine "|- -|" = false := by decide
example : isSeparatorLine "||" = false := by decide
example :
    parse_markdown_table "junk\n|a|b|\n|---|---|\n|1|2|\nrest" =
      (some ⟨["a", "b"], [["1", "2"]]⟩, 4) := by decide
example : parse_markdown_table "no table here" = (none, 0) := by decide
example :
    parse_markdown_table "|a|b|\n|---|---|\n\n|1|2|\n|x|" =
      (some ⟨["a", "b"], [["1", "2"]]⟩, 4) := by decide

/-
Helper lemmas about the state model.
-/

theorem sendToAiExcept_calls (a : String) (e : PyExc) (st : AppState) :
    (sendToAiExcept a e st).1.calls = st.calls := by
  unfold sendToAiExcept
  by_cases hk : keyClass e <;> by_cases hr : resetClass e <;>
    simp [hk, hr, update_conversation_history, update_ui_for_ai_status]

theorem initialAnalysisPost_calls_inl (jp : String → JsonOutcome) (raw : String)
    (st s : AppState) (h : initialAnalysisPost jp raw st = .inl s) :
    s.calls = st.calls := by
  unfold initialAnalysisPost at h
  cases hp : parse_initial_analysis_response jp raw with
  | none => rw [hp] at h; exact absurd h (by simp)
  | some info =>
    rw [hp] at h
    dsimp only at h
    split at h <;> (injection h with h2; subst h2; simp [update_conversation_history])

theorem initialAnalysisPost_calls_inr (jp : String → JsonOutcome) (raw : String)
    (st : AppState) (se : AppState × PyExc)
    (h : initialAnalysisPost jp raw st = .inr se) :
    se.1.calls = st.calls := by
  unfold initialAnalysisPost at h
  cases hp : parse_initial_analysis_response jp raw with
  | none => rw [hp] at h; injection h with h2; subst h2; rfl
  | some info =>
    rw [hp] at h
    dsimp only at h
    split at h <;> exact absurd h (by simp)

theorem sendToAiFinish_calls (jp : String → JsonOutcome) (a raw : String)
    (ia : Bool) (st : AppState) :
    (sendToAiFinish jp a raw ia st).1.calls = st.calls := by
  unfold sendToAiFinish
  cases ia with
  | false => rfl
  | true =>
    cases hres : initialAnalysisPost jp raw st with
    | inl s =>
      have h1 := initialAnalysisPost_calls_inl jp raw st s hres
      simp [update_ui_for_ai_status, h1]
    | inr se =>
      have h1 := initialAnalysisPost_calls_inr jp raw st se hres
      simp [sendToAiExcept_calls, h1]

theorem sendToAiFinish_snd_not_nondict (jp : String → JsonOutcome) (a raw : String)
    (ia : Bool) (st : AppState)
    (h : ia = true → jp (stripFences raw) ≠ .nondict) :
    (sendToAiFinish jp a raw ia st).2 = some raw := by
  unfold sendToAiFinish
  cases ia with
  | false => rfl
  | true =>
    cases hres : initialAnalysisPost jp raw st with
    | inl s => simp
    | inr se =>
      exfalso
      unfold initialAnalysisPost at hres
      cases hp : parse_initial_analysis_response jp raw with
      | some info =>
        rw [hp] at hres
        dsimp only at hres
        split at hres <;> simp at hres
      | none =>
        unfold parse_initial_analysis_response at hp
        cases hj : jp (stripFences raw) with
        | obj o => rw [hj] at hp; simp at hp
        | nondict => exact (h rfl) hj
        | decodeError => rw [hj] at hp; simp at hp

/-
Claim theorems.
-/

/-- Claim C5 counterexample: with GOOGLE_API_KEY set (to the empty string)
and a succeeding SDK configure call, the claim as stated requires
api_key_configured = true, but _configure_ai treats the empty value like a
missing one and leaves the flag false. -/
theorem configure_ai_empty_value_counterexample :
    (fun v => if v = "GOOGLE_API_KEY" then some "" else none) "GOOGLE_API_KEY" = some "" ∧
    (configure_ai (fun v => if v = "GOOGLE_API_KEY" then some "" else none) true
        {}).api_key_configured = false := by
  exact ⟨by decide, by decide⟩

/-- Claim C5 (amended): _configure_ai consults only the GOOGLE_API_KEY
environment variable, and sets api_key_configured to true exactly when
that variable is set to a non-empty value and the SDK configure call
succeeds, and to false otherwise. -/
theorem configure_ai_credential_spec (env : String → Option String)
    (configure_ok : Bool) (st : AppState) :
    ((configure_ai env configure_ok st).api_key_configured = true ↔
      (∃ k, env "GOOGLE_API_KEY" = some k ∧ k ≠ "" ∧ configure_ok = true)) ∧
    (∀ env' : String → Option String,
      env' "GOOGLE_API_KEY" = env "GOOGLE_API_KEY" →
      configure_ai env' configure_ok st = configure_ai env configure_ok st) := by
  constructor
  · cases henv : env "GOOGLE_API_KEY" with
    | none => simp [configure_ai, update_ui_for_ai_status, henv]
    | some k =>
      by_cases hk : k = "" <;> by_cases hc : configure_ok <;>
        simp [configure_ai, update_ui_for_ai_status, update_conversation_history,
          henv, hk, hc]
  · intro env' h
    unfold configure_ai
    rw [h]

/-- Witness for configure_ai_credential_spec at a concrete environment. -/
theorem configure_ai_credential_spec_witness :
    (configure_ai (fun _ => some "key") true {}).api_key_configured = true :=
  (configure_ai_credential_spec (fun _ => some "key") true {}).1.mpr
    ⟨"key", rfl, by decide, rfl⟩

/-- Claim C6 counterexample: the model-change reset path calls clear_all
with clear_files false (main.py line 1037), and that call leaves the
temp_images directory with its previously extracted images (whatever the
filesystem calls would do), against the claim that every call to
clear_all empties the directory. -/
theorem clear_all_tempdir_counterexample :
    clear_all_tempdir false true true ⟨true, ["pg1_img1.png"]⟩ =
      ⟨true, ["pg1_img1.png"]⟩ ∧
    (clear_all_tempdir false true true ⟨true, ["pg1_img1.png"]⟩).tempImages ≠ [] := by
  exact ⟨rfl, by decide⟩

/-- Claim C6 (amended): every call to clear_all with clear_files true (the
default, used by the Clear All button) whose shutil.rmtree deletion
succeeds deletes the temp_images directory if it exists and recreates it,
so afterwards the directory exists and contains no previously extracted
images; when the deletion fails with the caught OSError, the directory
and its previously extracted images are left in place. -/
theorem clear_all_tempdir_spec (fs : TempDirFS) :
    clear_all_tempdir true true true fs = { tempDirExists := true, tempImages := [] } ∧
    (∀ fs2 : TempDirFS, fs2.tempDirExists = true →
      clear_all_tempdir true false true fs2 = fs2) := by
  constructor
  · unfold clear_all_tempdir create_temp_image_dir
    by_cases h : fs.tempDirExists <;> simp [h]
  · intro fs2 h2
    unfold clear_all_tempdir create_temp_image_dir
    simp [h2]

/-- Witness for clear_all_tempdir_spec at a concrete directory state. -/
theorem clear_all_tempdir_spec_witness :
    clear_all_tempdir true true true ⟨true, ["old.png"]⟩ =
      { tempDirExists := true, tempImages := [] } ∧
    clear_all_tempdir true false true ⟨true, ["old.png"]⟩ = ⟨true, ["old.png"]⟩ :=
  ⟨(clear_all_tempdir_spec ⟨true, ["old.png"]⟩).1,
   (clear_all_tempdir_spec ⟨true, ["old.png"]⟩).2 ⟨true, ["old.png"]⟩ rfl⟩

/-- Claim C7: after _update_ui_for_ai_status the Send button and the user
input entry are enabled exactly when both the effective credential flag
and the effective model flag hold, and a send_to_ai call that fails with a
model-resetting exception leaves the model cleared and message sending
disabled until a model is selected again. -/
theorem update_ui_enabled_iff_and_reset_disables (st st2 : AppState)
    (keyArg mdlArg : Option Bool) (jp : String → JsonOutcome) (e : PyExc)
    (ia : Bool) (up : Option String) (m : String)
    (he : resetClass e = true) (hm : st2.model = some m) :
    ((update_ui_for_ai_status st keyArg mdlArg).send_enabled =
        (keyArg.getD st.api_key_configured && mdlArg.getD st.model.isSome)) ∧
    ((update_ui_for_ai_status st keyArg mdlArg).entry_enabled =
        (update_ui_for_ai_status st keyArg mdlArg).send_enabled) ∧
    (send_to_ai jp (.raises e) ia up st2).1.model = none ∧
    (send_to_ai jp (.raises e) ia up st2).1.send_enabled = false ∧
    (send_to_ai jp (.raises e) ia up st2).1.entry_enabled = false := by
  refine ⟨rfl, rfl, ?_⟩
  cases ia <;> cases up <;> by_cases hk : keyClass e <;>
    simp [send_to_ai, sendToAiExcept, update_conversation_history,
      update_ui_for_ai_status, hm, he, hk]

/-- Witness for update_ui_enabled_iff_and_reset_disables at concrete
inputs. -/
theorem update_ui_enabled_iff_and_reset_disables_witness :
    ((update_ui_for_ai_status {} none none).send_enabled =
        ((none : Option Bool).getD (AppState.api_key_configured {}) &&
          (none : Option Bool).getD (AppState.model {}).isSome)) ∧
    ((update_ui_for_ai_status {} none none).entry_enabled =
        (update_ui_for_ai_status {} none none).send_enabled) ∧
    (send_to_ai (fun _ => .decodeError) (.raises .valueError) false none
        { model := some "models/gemini-1.5-flash" }).1.model = none ∧
    (send_to_ai (fun _ => .decodeError) (.raises .valueError) false none
        { model := some "models/gemini-1.5-flash" }).1.send_enabled = false ∧
    (send_to_ai (fun _ => .decodeError) (.raises .valueError) false none
        { model := some "models/gemini-1.5-flash" }).1.entry_enabled = false :=
  update_ui_enabled_iff_and_reset_disables {} { model := some "models/gemini-1.5-flash" }
    none none (fun _ => .decodeError) .valueError false none "models/gemini-1.5-flash"
    (by decide) rfl

theorem sendUserQueryCore_calls (so : Bool) (co : ChatOutcome) (a lm : String)
    (img : Bool) (st : AppState) :
    (sendUserQueryCore so co a lm img st).calls = st.calls ∨
    (sendUserQueryCore so co a lm img st).calls = st.calls ++ [(none : Option Nat)] := by
  unfold sendUserQueryCore
  by_cases hc : st.chat_session
  · cases co with
    | raises e =>
      right
      simp [hc, update_conversation_history, update_ui_for_ai_status,
        apply_ite AppState.calls]
    | ok t =>
      right
      simp [hc, update_conversation_history, update_ui_for_ai_status,
        apply_ite AppState.calls]
  · cases so with
    | false =>
      left
      simp [hc, update_conversation_history, update_ui_for_ai_status]
    | true =>
      cases co with
      | raises e =>
        right
        simp [hc, update_conversation_history, update_ui_for_ai_status,
          apply_ite AppState.calls]
      | ok t =>
        right
        simp [hc, update_conversation_history, update_ui_for_ai_status,
          apply_ite AppState.calls]

/-- Claim C4 counterexample: the chat path of send_user_query reaches
chat_session.send_message without request options, so the recorded remote
call carries no timeout, against the claim that every remote generative
call passes the fixed 600 second timeout. -/
theorem send_user_query_no_timeout_counterexample :
    (send_user_query (fun s => (s, false)) true (.ok "resp")
        { model := some "models/gemini-1.5-flash-latest", api_key_configured := true,
          chat_session := true, user_input := "hello" }).calls = [(none : Option Nat)] ∧
    (none : Option Nat) ≠ some 600 := by
  exact ⟨by decide, by decide⟩

/-- Claim C4 (amended): the generate_content call of send_to_ai always
passes request options with the fixed timeout 600, while the send_message
call of the chat path in send_user_query passes no request options and so
no timeout; each invocation makes at most one remote call. -/
theorem remote_call_timeouts :
    (∀ (jp : String → JsonOutcome) (outcome : GenOutcome) (ia : Bool)
        (up : Option String) (st : AppState),
      (send_to_ai jp outcome ia up st).1.calls = st.calls ∨
      (send_to_ai jp outcome ia up st).1.calls = st.calls ++ [some 600]) ∧
    (∀ (im : AppState → AppState × Bool) (so : Bool) (co : ChatOutcome)
        (st : AppState), st.model.isSome = true → st.api_key_configured = true →
      (send_user_query im so co st).calls = st.calls ∨
      (send_user_query im so co st).calls = st.calls ++ [(none : Option Nat)]) := by
  constructor
  · intro jp outcome ia up st
    cases hm : st.model with
    | none => left; simp [send_to_ai, hm, update_conversation_history]
    | some m =>
      right
      cases outcome with
      | raises e =>
        cases ia <;> cases up <;> by_cases hk : keyClass e <;> by_cases hr : resetClass e <;>
          simp [send_to_ai, sendToAiExcept, hm, hk, hr, update_conversation_history,
            update_ui_for_ai_status]
      | blocked r =>
        cases ia <;> cases up <;>
          simp [send_to_ai, hm, update_conversation_history, sendToAiFinish_calls]
      | emptyResponse =>
        cases ia <;> cases up <;>
          simp [send_to_ai, hm, update_conversation_history, sendToAiFinish_calls]
      | ok t =>
        cases ia <;> cases up <;>
          simp [send_to_ai, hm, update_conversation_history, sendToAiFinish_calls]
  · intro im so co st h1 h2
    obtain ⟨m, hm⟩ := Option.isSome_iff_exists.mp h1
    cases hp : st.pending_image with
    | some img =>
      simp only [send_user_query, hm, h2, hp, Option.isNone_some, Bool.not_true,
        Bool.or_self, Bool.false_eq_true, if_false]
      exact sendUserQueryCore_calls _ _ _ _ _ _
    | none =>
      by_cases ht : pyStrip st.user_input = ""
      · left
        simp [send_user_query, hm, h2, hp, ht, update_conversation_history]
      · simp only [send_user_query, hm, h2, hp, Option.isNone_some, Bool.not_true,
          Bool.or_self, Bool.false_eq_true, if_false, ht, ne_eq, not_false_eq_true,
          if_pos]
        exact sendUserQueryCore_calls _ _ _ _ _ _

/-- Witness for remote_call_timeouts at concrete inputs. -/
theorem remote_call_timeouts_witness :
    ((send_to_ai (fun _ => JsonOutcome.decodeError) (GenOutcome.ok "hi") false none
        ({ model := some "m" } : AppState)).1.calls =
          ({ model := some "m" } : AppState).calls ∨
      (send_to_ai (fun _ => JsonOutcome.decodeError) (GenOutcome.ok "hi") false none
        ({ model := some "m" } : AppState)).1.calls =
          ({ model := some "m" } : AppState).calls ++ [some 600]) ∧
    ((send_user_query (fun s => (s, false)) true (ChatOutcome.ok "r")
        ({ model := some "m", api_key_configured := true, chat_session := true,
           user_input := "q" } : AppState)).calls =
          ({ model := some "m", api_key_configured := true, chat_session := true,
             user_input := "q" } : AppState).calls ∨
      (send_user_query (fun s => (s, false)) true (ChatOutcome.ok "r")
        ({ model := some "m", api_key_configured := true, chat_session := true,
           user_input := "q" } : AppState)).calls =
          ({ model := some "m", api_key_configured := true, chat_session := true,
             user_input := "q" } : AppState).calls ++ [(none : Option Nat)]) :=
  ⟨remote_call_timeouts.1 (fun _ => JsonOutcome.decodeError) (GenOutcome.ok "hi")
      false none ({ model := some "m" } : AppState),
   remote_call_timeouts.2 (fun s => (s, false)) true (ChatOutcome.ok "r")
      ({ model := some "m", api_key_configured := true, chat_session := true,
         user_input := "q" } : AppState) (by decide) (by decide)⟩

/-- Claim C2 counterexample: on a missing GOOGLE_API_KEY credential,
_configure_ai only prints a debug line and disables the widgets; it
appends no line at all to the conversation transcript, against the claim
that exactly one line describing the condition is appended. -/
theorem configure_ai_missing_key_counterexample :
    (configure_ai (fun _ => none) true {}).log = [] ∧
    (configure_ai (fun _ => none) true {}).api_key_configured = false ∧
    (configure_ai (fun _ => none) true {}).log.length ≠
      ({} : AppState).log.length + 1 := by
  exact ⟨by decide, by decide, by decide⟩

/-- Claim C2 (amended): the listed failures are caught and yield sentinel
results without re-invoking the failed call, and all except the missing
credential surface as transcript lines: a missing GOOGLE_API_KEY only
clears the credential flag and appends no transcript line (the code prints
a debug message); a PDF read failure appends one error line after the
progress line and returns the empty string; a generative call exception
appends one error line after the sending line (plus a reset notice when
the exception also resets the model), makes exactly one remote call and
returns the AI Error string; a blocked prompt returns the blocked-prompt
error string after one remote call, in the initial analysis as well as in
the later invocations (json.loads never yields a dict on the blocked
string, which is not valid JSON, stated here as a hypothesis on the
modelled parser); a cancelled save dialog appends one cancellation line
and returns. -/
theorem error_paths_spec :
    (∀ (env : String → Option String) (ok : Bool) (st : AppState),
      env "GOOGLE_API_KEY" = none →
      (configure_ai env ok st).api_key_configured = false ∧
      (configure_ai env ok st).log = st.log) ∧
    (∀ (e fp : String) (st : AppState),
      (extract_text_from_pdf true (.err e) fp st).2 = "" ∧
      (fp ≠ "" →
        (extract_text_from_pdf true (.err e) fp st).1.log =
          st.log ++ [("system", "System: Extracting text from " ++ fp ++ "..."),
                     ("error", "System: Error extracting text from " ++ fp ++ ": " ++ e)])) ∧
    (∀ (jp : String → JsonOutcome) (e : PyExc) (ia : Bool) (up : Option String)
        (st : AppState) (m : String), st.model = some m →
      (send_to_ai jp (.raises e) ia up st).2 = some ("AI Error: " ++ e.toStr) ∧
      (send_to_ai jp (.raises e) ia up st).1.calls = st.calls ++ [some 600] ∧
      (send_to_ai jp (.raises e) ia up st).1.log =
        st.log ++ [("system", "System: Sending to AI (" ++ m ++ ")... May take time."),
                   ("error", "System: Error with AI (" ++ m ++ "): " ++ e.toStr)] ++
          (if resetClass e then
            [("system", "System: Resetting model (" ++ m ++ ") due to error.")]
          else [])) ∧
    (∀ (jp : String → JsonOutcome) (r : String) (ia : Bool) (up : Option String)
        (st : AppState) (m : String), st.model = some m →
      (ia = true →
        jp (stripFences ("AI Error - Prompt was blocked. Reason: " ++ r)) ≠ .nondict) →
      (send_to_ai jp (.blocked r) ia up st).2 =
        some ("AI Error - Prompt was blocked. Reason: " ++ r) ∧
      (send_to_ai jp (.blocked r) ia up st).1.calls = st.calls ++ [some 600]) ∧
    (∀ (ok : Bool) (st : AppState), st.log ≠ [] →
      (download_history .cancelled ok st).log =
        st.log ++ [("system", "System: Download cancelled by user.")]) := by
  refine ⟨?_, ?_, ?_, ?_, ?_⟩
  · intro env ok st henv
    constructor <;> simp [configure_ai, update_ui_for_ai_status, henv]
  · intro e fp st
    constructor
    · by_cases hfp : fp = "" <;>
        simp [extract_text_from_pdf, hfp, update_conversation_history]
    · intro hfp
      simp [extract_text_from_pdf, hfp, update_conversation_history]
  · intro jp e ia up st m hm
    refine ⟨?_, ?_, ?_⟩ <;>
      (cases ia <;> cases up <;> by_cases hk : keyClass e <;> by_cases hr : resetClass e <;>
        simp [send_to_ai, sendToAiExcept, hm, hk, hr, update_conversation_history,
          update_ui_for_ai_status])
  · intro jp r ia up st m hm hjp
    have hfin : ∀ st' : AppState,
        (sendToAiFinish jp m ("AI Error - Prompt was blocked. Reason: " ++ r) ia st').2 =
          some ("AI Error - Prompt was blocked. Reason: " ++ r) :=
      fun st' => sendToAiFinish_snd_not_nondict jp m _ ia st' hjp
    constructor
    · cases ia <;> cases up <;>
        simp [send_to_ai, hm, update_conversation_history, hfin]
    · cases ia <;> cases up <;>
        simp [send_to_ai, hm, update_conversation_history, sendToAiFinish_calls]
  · intro ok st hlog
    cases hl : st.log with
    | nil => exact absurd hl hlog
    | cons p rest =>
      simp [download_history, hl, update_conversation_history]

/-- Witness for error_paths_spec at concrete inputs. -/
theorem error_paths_spec_witness :
    ((configure_ai (fun _ => none) false {}).api_key_configured = false ∧
      (configure_ai (fun _ => none) false {}).log = ({} : AppState).log) ∧
    (extract_text_from_pdf true (.err "read failed") "sheet.pdf" {}).2 = "" ∧
    (extract_text_from_pdf true (.err "read failed") "sheet.pdf" {}).1.log =
      ({} : AppState).log ++
        [("system", "System: Extracting text from " ++ "sheet.pdf" ++ "..."),
         ("error", "System: Error extracting text from " ++ "sheet.pdf" ++ ": " ++ "read failed")] ∧
    (send_to_ai (fun _ => JsonOutcome.decodeError) (.raises .notFound) false none
        ({ model := some "m" } : AppState)).2 = some ("AI Error: " ++ PyExc.toStr .notFound) ∧
    (send_to_ai (fun _ => JsonOutcome.decodeError) (.blocked "SAFETY") true none
        ({ model := some "m" } : AppState)).2 =
      some ("AI Error - Prompt was blocked. Reason: " ++ "SAFETY") ∧
    (download_history .cancelled true ({ log := [("user", "hi")] } : AppState)).log =
      ({ log := [("user", "hi")] } : AppState).log ++
        [("system", "System: Download cancelled by user.")] :=
  ⟨error_paths_spec.1 (fun _ => none) false {} rfl,
   (error_paths_spec.2.1 "read failed" "sheet.pdf" {}).1,
   (error_paths_spec.2.1 "read failed" "sheet.pdf" {}).2 (by decide),
   (error_paths_spec.2.2.1 (fun _ => JsonOutcome.decodeError) .notFound false none
      ({ model := some "m" } : AppState) "m" rfl).1,
   (error_paths_spec.2.2.2.1 (fun _ => JsonOutcome.decodeError) "SAFETY" true none
      ({ model := some "m" } : AppState) "m" rfl (fun _ => by decide)).1,
   error_paths_spec.2.2.2.2 true ({ log := [("user", "hi")] } : AppState) (by decide)⟩

/-
Helper lemmas for the fallback line parser.
-/

theorem startsL_head_disjoint {c d : Char} (hcd : c ≠ d) (cs ds l : List Char)
    (h : startsL (c :: cs) l = true) : startsL (d :: ds) l = false := by
  cases l with
  | nil => simp [startsL] at h
  | cons x xs =>
    simp only [startsL, Bool.and_eq_true, decide_eq_true_eq] at h
    have hdx : d ≠ x := fun hdx => hcd (by rw [h.1, hdx])
    simp [startsL, hdx]

theorem fallback_flag (lines : List String) (d : AnalysisData) :
    (lines.foldl fallbackStep d).is_similar_flag =
      (d.is_similar_flag ||
        lines.any (fun l => pyStartsWith l "Functionally_Similar:" &&
          similarYes (.str (afterFirstColonStrip l)))) := by
  induction lines generalizing d with
  | nil => simp
  | cons l rest ih =>
    rw [List.foldl_cons, ih, List.any_cons]
    unfold fallbackStep
    by_cases h1 : pyStartsWith l "Component1_Type:"
    · have hd : pyStartsWith l "Functionally_Similar:" = false :=
        startsL_head_disjoint (by decide) _ _ _ h1
      simp [h1, hd]
    · by_cases h2 : pyStartsWith l "Component2_Type:"
      · have hd : pyStartsWith l "Functionally_Similar:" = false :=
          startsL_head_disjoint (by decide) _ _ _ h2
        simp [h1, h2, hd]
      · by_cases h3 : pyStartsWith l "Functionally_Similar:"
        · simp [h1, h2, h3, similarYes, Bool.or_assoc]
        · by_cases h4 : pyStartsWith l "MFG_PN1:"
          · have hd : pyStartsWith l "Functionally_Similar:" = false := by
              simp [h3]
            simp [h1, h2, h3, h4]
          · by_cases h5 : pyStartsWith l "MFG_PN2:"
            · simp [h1, h2, h3, h4, h5]
            · simp [h1, h2, h3, h4, h5]

theorem fallback_keep_component1 (lines : List String) (d : AnalysisData)
    (h : ∀ l ∈ lines, pyStartsWith l "Component1_Type:" = false) :
    (lines.foldl fallbackStep d).component1_type = d.component1_type := by
  induction lines generalizing d with
  | nil => simp
  | cons l rest ih =>
    rw [List.foldl_cons, ih _ (fun x hx => h x (List.mem_cons_of_mem _ hx))]
    have hl := h l (List.mem_cons_self _ _)
    unfold fallbackStep
    split_ifs <;> simp_all

theorem fallback_keep_component2 (lines : List String) (d : AnalysisData)
    (h : ∀ l ∈ lines, pyStartsWith l "Component2_Type:" = false) :
    (lines.foldl fallbackStep d).component2_type = d.component2_type := by
  induction lines generalizing d with
  | nil => simp
  | cons l rest ih =>
    rw [List.foldl_cons, ih _ (fun x hx => h x (List.mem_cons_of_mem _ hx))]
    have hl := h l (List.mem_cons_self _ _)
    unfold fallbackStep
    split_ifs <;> simp_all

theorem fallback_keep_similar (lines : List String) (d : AnalysisData)
    (h : ∀ l ∈ lines, pyStartsWith l "Functionally_Similar:" = false) :
    (lines.foldl fallbackStep d).functionally_similar = d.functionally_similar := by
  induction lines generalizing d with
  | nil => simp
  | cons l rest ih =>
    rw [List.foldl_cons, ih _ (fun x hx => h x (List.mem_cons_of_mem _ hx))]
    have hl := h l (List.mem_cons_self _ _)
    unfold fallbackStep
    split_ifs <;> simp_all

theorem fallback_keep_mfg1 (lines : List String) (d : AnalysisData)
    (h : ∀ l ∈ lines, pyStartsWith l "MFG_PN1:" = false) :
    (lines.foldl fallbackStep d).mfg_pn1 = d.mfg_pn1 := by
  induction lines generalizing d with
  | nil => simp
  | cons l rest ih =>
    rw [List.foldl_cons, ih _ (fun x hx => h x (List.mem_cons_of_mem _ hx))]
    have hl := h l (List.mem_cons_self _ _)
    unfold fallbackStep
    split_ifs <;> simp_all

theorem fallback_keep_mfg2 (lines : List String) (d : AnalysisData)
    (h : ∀ l ∈ lines, pyStartsWith l "MFG_PN2:" = false) :
    (lines.foldl fallbackStep d).mfg_pn2 = d.mfg_pn2 := by
  induction lines generalizing d with
  | nil => simp
  | cons l rest ih =>
    rw [List.foldl_cons, ih _ (fun x hx => h x (List.mem_cons_of_mem _ hx))]
    have hl := h l (List.mem_cons_self _ _)
    unfold fallbackStep
    split_ifs <;> simp_all

/-- Claim C10 counterexample: on input "[]" json.loads succeeds with a
non-dict value, the subsequent attribute access raises AttributeError out
of _parse_initial_analysis_response (modelled none) instead of returning
the six-key dict; and in the fallback path two Functionally_Similar lines
leave is_similar_flag true while the stored Functionally_Similar text is
"no", so the flag is not equivalent to the stored text starting with
yes. -/
theorem parse_initial_analysis_counterexample :
    parse_initial_analysis_response (fun _ => .nondict) "[]" = none ∧
    parse_initial_analysis_response (fun _ => .decodeError)
        "Functionally_Similar: yes\nFunctionally_Similar: no" =
      some { functionally_similar := .str "no", is_similar_flag := true } ∧
    similarYes (.str "no") = false := by
  exact ⟨by decide, by decide, by decide⟩

/-- Claim C10 (amended): for every input string on which json.loads either
returns a JSON object or raises JSONDecodeError, the function returns a
dict with all six keys: in the object case the fields are the looked-up
values with defaults Unknown and Not Found and is_similar_flag holds
exactly when the Functionally_Similar value is a string starting with yes
(case-insensitively) or with the Chinese yes character; in the fallback
case the input is split on newlines and parsed line by line, a field keeps
its default when no line carries its label, and is_similar_flag holds
exactly when some Functionally_Similar line value starts with yes or the
Chinese yes character (the stored text being that of the last such
line).  A non-dict JSON value instead raises AttributeError out of the
function. -/
theorem parse_initial_analysis_spec (jp : String → JsonOutcome) (s : String) :
    (∀ entries, jp (stripFences s) = .obj entries →
      parse_initial_analysis_response jp s =
        some { component1_type := (entries.lookup "Component1_Type").getD (.str "Unknown"),
               component2_type := (entries.lookup "Component2_Type").getD (.str "Unknown"),
               functionally_similar := (entries.lookup "Functionally_Similar").getD (.str "Unknown"),
               is_similar_flag :=
                 similarYes ((entries.lookup "Functionally_Similar").getD (.str "Unknown")),
               mfg_pn1 := (entries.lookup "MFG_PN1").getD (.str "Not Found"),
               mfg_pn2 := (entries.lookup "MFG_PN2").getD (.str "Not Found") }) ∧
    (jp (stripFences s) = .decodeError →
      ∃ d, parse_initial_analysis_response jp s = some d ∧
        d.is_similar_flag =
          (pySplitNL s).any (fun l => pyStartsWith l "Functionally_Similar:" &&
            similarYes (.str (afterFirstColonStrip l))) ∧
        ((∀ l ∈ pySplitNL s, pyStartsWith l "Component1_Type:" = false) →
          d.component1_type = .str "Unknown") ∧
        ((∀ l ∈ pySplitNL s, pyStartsWith l "Component2_Type:" = false) →
          d.component2_type = .str "Unknown") ∧
        ((∀ l ∈ pySplitNL s, pyStartsWith l "Functionally_Similar:" = false) →
          d.functionally_similar = .str "Unknown") ∧
        ((∀ l ∈ pySplitNL s, pyStartsWith l "MFG_PN1:" = false) →
          d.mfg_pn1 = .str "Not Found") ∧
        ((∀ l ∈ pySplitNL s, pyStartsWith l "MFG_PN2:" = false) →
          d.mfg_pn2 = .str "Not Found")) := by
  constructor
  · intro entries h
    simp [parse_initial_analysis_response, h]
  · intro h
    refine ⟨(pySplitNL s).foldl fallbackStep {}, by simp [parse_initial_analysis_response, h],
      ?_, ?_, ?_, ?_, ?_, ?_⟩
    · rw [fallback_flag]
      rfl
    · intro hall
      rw [fallback_keep_component1 _ _ hall]
    · intro hall
      rw [fallback_keep_component2 _ _ hall]
    · intro hall
      rw [fallback_keep_similar _ _ hall]
    · intro hall
      rw [fallback_keep_mfg1 _ _ hall]
    · intro hall
      rw [fallback_keep_mfg2 _ _ hall]

/-- Witness for parse_initial_analysis_spec at a concrete JSON object. -/
theorem parse_initial_analysis_spec_witness :
    parse_initial_analysis_response
        (fun _ => .obj [("Functionally_Similar", .str "Yes, both LDOs")]) "irrelevant" =
      some { component1_type :=
               (([("Functionally_Similar", PyVal.str "Yes, both LDOs")]).lookup
                 "Component1_Type").getD (.str "Unknown"),
             component2_type :=
               (([("Functionally_Similar", PyVal.str "Yes, both LDOs")]).lookup
                 "Component2_Type").getD (.str "Unknown"),
             functionally_similar :=
               (([("Functionally_Similar", PyVal.str "Yes, both LDOs")]).lookup
                 "Functionally_Similar").getD (.str "Unknown"),
             is_similar_flag :=
               similarYes ((([("Functionally_Similar", PyVal.str "Yes, both LDOs")]).lookup
                 "Functionally_Similar").getD (.str "Unknown")),
             mfg_pn1 :=
               (([("Functionally_Similar", PyVal.str "Yes, both LDOs")]).lookup
                 "MFG_PN1").getD (.str "Not Found"),
             mfg_pn2 :=
               (([("Functionally_Similar", PyVal.str "Yes, both LDOs")]).lookup
                 "MFG_PN2").getD (.str "Not Found") } :=
  (parse_initial_analysis_spec
      (fun _ => .obj [("Functionally_Similar", .str "Yes, both LDOs")]) "irrelevant").1
    [("Functionally_Similar", .str "Yes, both LDOs")] rfl

/-- Claim C3 counterexample: an eight line block, each line equal to a
table cell, satisfies the redundancy criterion described by the claim
(seven of its first seven non-blank lines equal a cell, well above 75
percent), yet _finalize_text_block emits it as a text segment, because
_is_text_segment_redundant_with_table rejects outright every unheaded
block with more than seven non-blank lines. -/
theorem finalize_text_block_counterexample :
    redundant_claim_C3 (List.replicate 8 "alpha")
        ⟨["Parameter", "Value"], [["alpha", "beta"]]⟩ = true ∧
    is_text_segment_redundant_with_table (List.replicate 8 "alpha")
        ⟨["Parameter", "Value"], [["alpha", "beta"]]⟩ = false ∧
    finalize_text_block (List.replicate 8 "alpha")
        (some ⟨["Parameter", "Value"], [["alpha", "beta"]]⟩) =
      some (.text "alpha\nalpha\nalpha\nalpha\nalpha\nalpha\nalpha\nalpha") := by
  exact ⟨by decide, by decide, by decide⟩

/-- Claim C3 (amended): for a text block that directly follows a parsed
table and does not itself parse as an implicit key and value table,
_finalize_text_block omits the block exactly when
_is_text_segment_redundant_with_table holds, and otherwise emits the block
as a text segment; the predicate applies its 75 and 51 percent thresholds
to at most the first seven content lines and in particular never holds for
a block of more than seven non-blank lines whose first line is not a bold
or heading line. -/
theorem finalize_text_block_spec (block : List String) (tbl : MdTable)
    (hnb : (block.filter (fun l => decide (pyStrip l ≠ ""))).isEmpty = false)
    (himp : parse_implicit_table block = none)
    (hcol : pyStrip (pyJoin "\n" block) ≠ "") :
    (finalize_text_block block (some tbl) = none ↔
      is_text_segment_redundant_with_table block tbl = true) ∧
    (is_text_segment_redundant_with_table block tbl = false →
      finalize_text_block block (some tbl) =
        some (.text (pyStrip (pyJoin "\n" block)))) ∧
    (∀ f rest, block.filter (fun l => decide (pyStrip l ≠ "")) = f :: rest →
      headedFirstLine f = false → 7 < (f :: rest).length →
      is_text_segment_redundant_with_table block tbl = false) := by
  have hnb' : ∃ x ∈ block, ¬pyStrip x = "" := by
    by_contra hx
    push_neg at hx
    have : block.filter (fun l => decide (pyStrip l ≠ "")) = [] := by
      apply List.filter_eq_nil_iff.mpr
      intro a ha
      simp [hx a ha]
    rw [this] at hnb
    simp at hnb
  refine ⟨?_, ?_, ?_⟩
  · cases hred : is_text_segment_redundant_with_table block tbl <;>
      simp [finalize_text_block, hnb', himp, hcol, hred]
  · intro hred
    simp [finalize_text_block, hnb', himp, hcol, hred]
  · intro f rest hfr hheaded hlen
    have hcond : (!headedFirstLine f && decide (7 < (f :: rest).length)) = true := by
      simp only [List.length_cons] at hlen
      simp [hheaded, hlen]
    unfold is_text_segment_redundant_with_table
    rw [hfr]
    dsimp only
    rw [if_pos hcond]

/-- Witness for finalize_text_block_spec at a concrete block and table. -/
theorem finalize_text_block_spec_witness :
    ((finalize_text_block ["Extra note"] (some ⟨["Parameter"], [["alpha"]]⟩) = none ↔
      is_text_segment_redundant_with_table ["Extra note"]
        ⟨["Parameter"], [["alpha"]]⟩ = true) ∧
    (is_text_segment_redundant_with_table ["Extra note"]
        ⟨["Parameter"], [["alpha"]]⟩ = false →
      finalize_text_block ["Extra note"] (some ⟨["Parameter"], [["alpha"]]⟩) =
        some (.text (pyStrip (pyJoin "\n" ["Extra note"])))) ∧
    (∀ f rest, (["Extra note"] : List String).filter (fun l => decide (pyStrip l ≠ "")) = f :: rest →
      headedFirstLine f = false → 7 < (f :: rest).length →
      is_text_segment_redundant_with_table ["Extra note"]
        ⟨["Parameter"], [["alpha"]]⟩ = false)) :=
  finalize_text_block_spec ["Extra note"] ⟨["Parameter"], [["alpha"]]⟩
    (by decide) (by decide) (by decide)

/-
Helper lemmas about the markdown table parser.
-/

theorem splitChar_ne_nil (sep : Char) (l : List Char) : splitChar sep l ≠ [] := by
  induction l with
  | nil => simp [splitChar]
  | cons c rest ih =>
    unfold splitChar
    cases h : splitChar sep rest with
    | nil => simp
    | cons g gs => by_cases hc : c = sep <;> simp [hc]

theorem splitChar_length (sep : Char) (l : List Char) :
    (splitChar sep l).length = l.countP (fun c => decide (c = sep)) + 1 := by
  induction l with
  | nil => simp [splitChar]
  | cons c rest ih =>
    unfold splitChar
    cases h : splitChar sep rest with
    | nil => exact absurd h (splitChar_ne_nil sep rest)
    | cons g gs =>
      rw [h] at ih
      simp only [List.length_cons] at ih
      by_cases hc : c = sep
      · simp [hc, List.countP_cons, ih]
      · simp [hc, List.countP_cons, ih]

theorem cellsOf_length (t : String) (h1 : startsWithPipe t = true)
    (h2 : endsWithPipe t = true) (h3 : 2 ≤ countPipes t) :
    (cellsOf t).length = countPipes t - 1 := by
  unfold cellsOf innerChars
  rw [List.length_map, splitChar_length]
  unfold countPipes at h3 ⊢
  unfold startsWithPipe at h1
  unfold endsWithPipe at h2
  rcases hd : t.data with _ | ⟨c, l'⟩
  · rw [hd] at h3; simp at h3
  · rw [hd] at h1 h2 h3
    simp only [List.head?_cons, decide_eq_true_eq, Option.some.injEq] at h1
    subst h1
    simp only [decide_eq_true_eq] at h2
    obtain ⟨ys, hys⟩ := List.getLast?_eq_some_iff.mp h2
    cases ys with
    | nil =>
      simp only [List.nil_append, List.cons.injEq] at hys
      rw [hys.2] at h3
      simp [List.countP_cons] at h3
    | cons y ys' =>
      simp only [List.cons_append, List.cons.injEq] at hys
      obtain ⟨hy, hl'⟩ := hys
      simp only [List.drop_succ_cons, List.drop_zero, hl', List.dropLast_concat,
        List.countP_cons, List.countP_append]
      simp

theorem scanRows_length_le (numCols : Nat) (ts : List String) :
    (scanRows numCols ts).length ≤ ts.length := by
  induction ts with
  | nil => simp [scanRows]
  | cons t rest ih =>
    unfold scanRows
    by_cases hp : startsWithPipe t && endsWithPipe t
    · rw [if_pos hp]
      by_cases hc : countPipes t ≠ numCols + 1
      · simp [hc]
      · rw [if_neg (by simpa using hc)]
        simp only [List.length_cons]
        omega
    · simp [hp]

theorem scanRows_row_length (numCols : Nat) (ts : List String) :
    ∀ r ∈ scanRows numCols ts, r.length = numCols := by
  induction ts with
  | nil => simp [scanRows]
  | cons t rest ih =>
    unfold scanRows
    by_cases hp : startsWithPipe t && endsWithPipe t
    · rw [if_pos hp]
      by_cases hc : countPipes t ≠ numCols + 1
      · simp [hc]
      · rw [if_neg (by simpa using hc)]
        intro r hr
        rcases List.mem_cons.mp hr with h0 | h1
        · subst h0
          split_ifs with he hlt
          · exact of_decide_eq_true he
          · rw [List.length_append, List.length_replicate]
            have hx := of_decide_eq_true hlt
            omega
          · rw [List.length_take]
            have hx1 : ¬(cellsOf t).length = numCols := by simpa using he
            have hx2 : ¬(cellsOf t).length < numCols := by simpa using hlt
            omega
        · exact ih r h1
    · simp [hp]

theorem scanRows_spec (numCols : Nat) (hn : 1 ≤ numCols) (ts : List String) :
    (∀ (k : Nat) (r : List String), (scanRows numCols ts)[k]? = some r →
      ∃ t, ts[k]? = some t ∧ startsWithPipe t = true ∧ endsWithPipe t = true ∧
        countPipes t = numCols + 1 ∧ r = cellsOf t) ∧
    (∀ (t : String), ts[(scanRows numCols ts).length]? = some t →
      ¬(startsWithPipe t = true ∧ endsWithPipe t = true ∧
        countPipes t = numCols + 1)) := by
  induction ts with
  | nil =>
    constructor
    · intro k r h; simp [scanRows] at h
    · intro t h; simp at h
  | cons t0 rest ih =>
    by_cases hp : startsWithPipe t0 && endsWithPipe t0
    · by_cases hc : countPipes t0 = numCols + 1
      · have h1 : startsWithPipe t0 = true := (Bool.and_eq_true _ _ |>.mp hp).1
        have h2 : endsWithPipe t0 = true := (Bool.and_eq_true _ _ |>.mp hp).2
        have hcells : (cellsOf t0).length = numCols := by
          rw [cellsOf_length t0 h1 h2 (by omega), hc]
          omega
        have hrow : scanRows numCols (t0 :: rest) = cellsOf t0 :: scanRows numCols rest := by
          conv_lhs => unfold scanRows
          rw [if_pos hp]
          simp [hc, hcells]
        constructor
        · intro k r h
          rw [hrow] at h
          cases k with
          | zero =>
            refine ⟨t0, by simp, h1, h2, hc, ?_⟩
            simp at h
            exact h.symm
          | succ k' =>
            simp only [List.getElem?_cons_succ] at h
            obtain ⟨t, ht, ha, hb, hcnt, hr⟩ := ih.1 k' r h
            exact ⟨t, by simpa using ht, ha, hb, hcnt, hr⟩
        · intro t h
          rw [hrow] at h
          simp only [List.length_cons, List.getElem?_cons_succ] at h
          exact ih.2 t h
      · have hrow : scanRows numCols (t0 :: rest) = [] := by
          conv_lhs => unfold scanRows
          rw [if_pos hp]
          simp [hc]
        constructor
        · intro k r h
          rw [hrow] at h
          simp at h
        · intro t h
          rw [hrow] at h
          simp only [List.length_nil, List.getElem?_cons_zero, Option.some.injEq] at h
          subst h
          intro hcontra
          exact hc hcontra.2.2
    · have hrow : scanRows numCols (t0 :: rest) = [] := by
        conv_lhs => unfold scanRows
        rw [if_neg hp]
      constructor
      · intro k r h
        rw [hrow] at h
        simp at h
      · intro t h
        rw [hrow] at h
        simp only [List.length_nil, List.getElem?_cons_zero, Option.some.injEq] at h
        subst h
        intro hcontra
        exact hp (by rw [hcontra.1, hcontra.2.1]; rfl)

theorem pairAtB_nil (i : Nat) : pairAtB [] i = false := by
  unfold pairAtB
  simp

theorem pairAtB_single (p : String × Nat) (i : Nat) : pairAtB [p] i = false := by
  unfold pairAtB
  cases i with
  | zero => simp
  | succ j => simp

theorem pairAtB_cons_succ (p : String × Nat) (pl : List (String × Nat)) (i : Nat) :
    pairAtB (p :: pl) (i + 1) = pairAtB pl i := by
  unfold pairAtB
  simp

theorem pairAtB_cons_zero (p q : String × Nat) (rest : List (String × Nat)) :
    pairAtB (p :: q :: rest) 0 = pairOK p.1 q.1 := by
  unfold pairAtB
  simp

theorem findPairIndex_none_spec :
    ∀ (pl : List (String × Nat)), findPairIndex pl = none →
      ∀ i, pairAtB pl i = false := by
  intro pl
  induction pl with
  | nil => intro _ i; exact pairAtB_nil i
  | cons p tail ih =>
    intro h i
    cases tail with
    | nil => exact pairAtB_single p i
    | cons q rest =>
      unfold findPairIndex at h
      by_cases hpq : pairOK p.1 q.1
      · rw [if_pos hpq] at h
        exact absurd h (by simp)
      · rw [if_neg hpq] at h
        have htail : findPairIndex (q :: rest) = none := by
          cases hfind : findPairIndex (q :: rest) with
          | none => rfl
          | some j => rw [hfind] at h; simp at h
        cases i with
        | zero =>
          rw [pairAtB_cons_zero]
          exact Bool.not_eq_true _ ▸ (by simpa using hpq)
        | succ j =>
          rw [pairAtB_cons_succ]
          exact ih htail j

theorem findPairIndex_some_spec :
    ∀ (pl : List (String × Nat)) (h : Nat), findPairIndex pl = some h →
      pairAtB pl h = true ∧ (∀ j, j < h → pairAtB pl j = false) ∧ h + 1 < pl.length := by
  intro pl
  induction pl with
  | nil => intro h hf; simp [findPairIndex] at hf
  | cons p tail ih =>
    intro h hf
    cases tail with
    | nil => simp [findPairIndex] at hf
    | cons q rest =>
      unfold findPairIndex at hf
      by_cases hpq : pairOK p.1 q.1
      · rw [if_pos hpq] at hf
        injection hf with hf
        subst hf
        refine ⟨by rw [pairAtB_cons_zero]; exact hpq, ?_, ?_⟩
        · intro j hj; omega
        · simp
      · rw [if_neg hpq] at hf
        cases hfind : findPairIndex (q :: rest) with
        | none => rw [hfind] at hf; simp at hf
        | some j =>
          rw [hfind] at hf
          have hf' : j + 1 = h := by simpa using hf
          subst hf'
          obtain ⟨ha, hb, hlen⟩ := ih j hfind
          refine ⟨by rw [pairAtB_cons_succ]; exact ha, ?_, ?_⟩
          · intro k hk
            cases k with
            | zero =>
              rw [pairAtB_cons_zero]
              simpa using hpq
            | succ k' =>
              rw [pairAtB_cons_succ]
              exact hb k' (by omega)
          · simp only [List.length_cons] at hlen ⊢
            omega

theorem processedLinesAux_getElem (ls : List String) :
    ∀ (k j : Nat) (p : String × Nat), (processedLinesAux k ls)[j]? = some p →
      k + j ≤ p.2 ∧ p.2 < k + ls.length := by
  induction ls with
  | nil => intro k j p h; simp [processedLinesAux] at h
  | cons line rest ih =>
    intro k j p h
    unfold processedLinesAux at h
    by_cases hb : pyStrip line = ""
    · rw [if_pos hb] at h
      have := ih (k + 1) j p h
      simp only [List.length_cons]
      omega
    · rw [if_neg hb] at h
      cases j with
      | zero =>
        simp only [List.getElem?_cons_zero, Option.some.injEq] at h
        subst h
        simp only [List.length_cons]
        omega
      | succ j' =>
        simp only [List.getElem?_cons_succ] at h
        have := ih (k + 1) j' p h
        simp only [List.length_cons]
        omega

theorem parse_markdown_table_some_pos (s : String) (tbl : MdTable) (n : Nat)
    (h : parse_markdown_table s = (some tbl, n)) : 1 ≤ n := by
  unfold parse_markdown_table at h
  dsimp only at h
  split at h
  · exact absurd (congrArg Prod.fst h) (by simp)
  · split at h
    · exact absurd (congrArg Prod.fst h) (by simp)
    · have h2 := congrArg Prod.snd h
      simp only at h2
      omega

theorem processedLines_getElem (s : String) (j : Nat) (p : String × Nat)
    (h : (processedLines s)[j]? = some p) :
    j ≤ p.2 ∧ p.2 < (pySplitlines s).length := by
  have hb := processedLinesAux_getElem (pySplitlines s) 0 j p (by
    unfold processedLines at h; exact h)
  omega

/-- Claim C8: whenever _parse_markdown_table returns a table, every row of
the returned rows list has exactly as many cells as there are headers:
rows whose pipe count matches are split into exactly that many cells, and
mismatched rows are either excluded because the scan stops or padded and
truncated to the header width by the fallback branch before being
added. -/
theorem parse_markdown_table_row_width (s : String) (tbl : MdTable) (n : Nat)
    (h : parse_markdown_table s = (some tbl, n)) :
    ∀ r ∈ tbl.rows, r.length = tbl.headers.length := by
  unfold parse_markdown_table at h
  dsimp only at h
  split at h
  · exact absurd (congrArg Prod.fst h) (by simp)
  · split at h
    · exact absurd (congrArg Prod.fst h) (by simp)
    · have h1 := congrArg Prod.fst h
      simp only at h1
      injection h1 with h1
      subst h1
      intro r hr
      exact scanRows_row_length _ _ r hr

/-- Witness for parse_markdown_table_row_width at a concrete table. -/
theorem parse_markdown_table_row_width_witness :
    (["1", "2"] : List String).length = (["a", "b"] : List String).length :=
  parse_markdown_table_row_width "|a|b|\n|---|---|\n|1|2|"
    ⟨["a", "b"], [["1", "2"]]⟩ 3 (by decide) ["1", "2"] (by decide)

/-- Claim C9: whenever _parse_markdown_table returns a table, the returned
lines_consumed count is at least two (the header and the separator sit at
distinct original line indices) and at most the number of lines of its
input, and the scanning loop of _format_ai_response advances its line
index by at least one on every iteration, which is the measure on which
the recursion formatGo is accepted, so the loop terminates for every
input string. -/
theorem parse_markdown_table_consumed_bounds (s : String) (tbl : MdTable) (n : Nat)
    (h : parse_markdown_table s = (some tbl, n)) :
    (2 ≤ n ∧ n ≤ (pySplitlines s).length) ∧
    (∀ (lines : List String) (i : Nat), 1 ≤ loopAdvance lines i) := by
  constructor
  · unfold parse_markdown_table at h
    dsimp only at h
    by_cases hemp : (processedLines s).isEmpty
    · rw [if_pos hemp] at h
      exact absurd (congrArg Prod.fst h) (by simp)
    · rw [if_neg hemp] at h
      cases hfind : findPairIndex (processedLines s) with
      | none =>
        rw [hfind] at h
        exact absurd (congrArg Prod.fst h) (by simp)
      | some hIdx =>
        rw [hfind] at h
        have h2 := congrArg Prod.snd h
        simp only at h2
        obtain ⟨hpair, hmin, hlt⟩ := findPairIndex_some_spec _ _ hfind
        generalize hL : (scanRows (cellsOf (((processedLines s)[hIdx]?).getD ("", 0)).1).length
            (((processedLines s).map Prod.fst).drop (hIdx + 2))).length = L at h2
        have hLle : L ≤ (processedLines s).length - (hIdx + 2) := by
          rw [← hL]
          have hsl := scanRows_length_le
            (cellsOf (((processedLines s)[hIdx]?).getD ("", 0)).1).length
            (((processedLines s).map Prod.fst).drop (hIdx + 2))
          simpa using hsl
        have hidxlt : hIdx + 1 + L < (processedLines s).length := by omega
        have hget : (processedLines s)[hIdx + 1 + L]? =
            some ((processedLines s)[hIdx + 1 + L]) := List.getElem?_eq_getElem hidxlt
        rw [hget] at h2
        simp only [Option.getD_some] at h2
        have hbound := processedLines_getElem s (hIdx + 1 + L) _ hget
        omega
  · intro lines i
    unfold loopAdvance
    cases hres : parse_markdown_table (pyJoin "\n" (lines.drop i)) with
    | mk o m =>
      cases o with
      | none => exact Nat.le_refl 1
      | some tbl2 => exact parse_markdown_table_some_pos _ tbl2 m hres

/-- Witness for parse_markdown_table_consumed_bounds at a concrete
input. -/
theorem parse_markdown_table_consumed_bounds_witness :
    (2 ≤ 3 ∧ 3 ≤ (pySplitlines "|a|b|\n|---|---|\n|1|2|").length) ∧
    1 ≤ loopAdvance ["no table"] 0 :=
  ⟨(parse_markdown_table_consumed_bounds "|a|b|\n|---|---|\n|1|2|"
      ⟨["a", "b"], [["1", "2"]]⟩ 3 (by decide)).1,
   (parse_markdown_table_consumed_bounds "|a|b|\n|---|---|\n|1|2|"
      ⟨["a", "b"], [["1", "2"]]⟩ 3 (by decide)).2 ["no table"] 0⟩

/-- Claim C1: characterisation of _parse_markdown_table.  When no
processed (non-blank, stripped) line together with its successor forms a
header and separator pair (pipe-delimited line with at least two pipes,
followed among the non-blank lines by a separator line of dashes and
colons with the same positive number of columns), the function returns
(none, 0).  When it returns a table, there is a first pair position i:
the headers are the stripped cells of the processed line at i, every
returned row k consists of the stripped cells of the pipe-delimited
processed line at i + 2 + k whose pipe count is the header count plus one,
and the scan stops exactly at the first following processed line that is
not of that shape. -/
theorem parse_markdown_table_spec (s : String) :
    ((parse_markdown_table s).1 = none →
      parse_markdown_table s = (none, 0) ∧
        ∀ i, pairAtB (processedLines s) i = false) ∧
    (∀ tbl, (parse_markdown_table s).1 = some tbl →
      ∃ i, pairAtB (processedLines s) i = true ∧
        (∀ j, j < i → pairAtB (processedLines s) j = false) ∧
        (∃ p, (processedLines s)[i]? = some p ∧ tbl.headers = cellsOf p.1 ∧
          1 ≤ tbl.headers.length) ∧
        (∀ k, k < tbl.rows.length →
          ∃ q, (processedLines s)[i + 2 + k]? = some q ∧
            startsWithPipe q.1 = true ∧ endsWithPipe q.1 = true ∧
            countPipes q.1 = tbl.headers.length + 1 ∧
            tbl.rows[k]? = some (cellsOf q.1)) ∧
        (∀ q, (processedLines s)[i + 2 + tbl.rows.length]? = some q →
          ¬(startsWithPipe q.1 = true ∧ endsWithPipe q.1 = true ∧
            countPipes q.1 = tbl.headers.length + 1))) := by
  constructor
  · intro hnone
    by_cases hemp : (processedLines s).isEmpty
    · have hpl : processedLines s = [] := List.isEmpty_iff.mp hemp
      constructor
      · unfold parse_markdown_table
        dsimp only
        rw [if_pos hemp]
      · intro i
        rw [hpl]
        exact pairAtB_nil i
    · cases hfind : findPairIndex (processedLines s) with
      | none =>
        constructor
        · unfold parse_markdown_table
          dsimp only
          rw [if_neg hemp, hfind]
        · exact findPairIndex_none_spec _ hfind
      | some hIdx =>
        exfalso
        unfold parse_markdown_table at hnone
        dsimp only at hnone
        rw [if_neg hemp, hfind] at hnone
        simp at hnone
  · intro tbl htbl
    unfold parse_markdown_table at htbl
    dsimp only at htbl
    by_cases hemp : (processedLines s).isEmpty
    · rw [if_pos hemp] at htbl; simp at htbl
    · rw [if_neg hemp] at htbl
      cases hfind : findPairIndex (processedLines s) with
      | none => rw [hfind] at htbl; simp at htbl
      | some hIdx =>
        rw [hfind] at htbl
        dsimp only at htbl
        injection htbl with htbl
        subst htbl
        obtain ⟨hpair, hmin, hlen⟩ := findPairIndex_some_spec _ _ hfind
        have hi : hIdx < (processedLines s).length := by omega
        have hgetp : (processedLines s)[hIdx]? = some ((processedLines s)[hIdx]) :=
          List.getElem?_eq_getElem hi
        have hgetq : (processedLines s)[hIdx + 1]? = some ((processedLines s)[hIdx + 1]) :=
          List.getElem?_eq_getElem hlen
        have hOK : pairOK ((processedLines s)[hIdx]).1 ((processedLines s)[hIdx + 1]).1 = true := by
          have hp := hpair
          unfold pairAtB at hp
          rw [hgetp, hgetq] at hp
          exact hp
        have hOKs := hOK
        unfold pairOK at hOKs
        simp only [Bool.and_eq_true, decide_eq_true_eq] at hOKs
        obtain ⟨⟨⟨⟨⟨hsp, hep⟩, hcp⟩, hsep⟩, hcols⟩, hnz⟩ := hOKs
        have hn2 : 1 ≤ (cellsOf (((processedLines s)[hIdx]?).getD ("", 0)).1).length := by
          rw [hgetp]
          simp only [Option.getD_some]
          omega
        refine ⟨hIdx, hpair, hmin, ?_, ?_, ?_⟩
        · refine ⟨(processedLines s)[hIdx], hgetp, ?_, ?_⟩
          · simp [hgetp]
          · exact hn2
        · intro k hk
          have hts : (((processedLines s).map Prod.fst).drop (hIdx + 2))[k]? =
              ((processedLines s)[hIdx + 2 + k]?).map Prod.fst := by
            rw [List.getElem?_drop, List.getElem?_map]
          have hrk := List.getElem?_eq_getElem hk
          obtain ⟨t, ht, hsp2, hep2, hcnt2, hr2⟩ :=
            (scanRows_spec (cellsOf (((processedLines s)[hIdx]?).getD ("", 0)).1).length hn2
              (((processedLines s).map Prod.fst).drop (hIdx + 2))).1 k _ hrk
          rw [hts] at ht
          obtain ⟨q, hq, hqt⟩ := Option.map_eq_some'.mp ht
          subst hqt
          exact ⟨q, hq, hsp2, hep2, hcnt2, by rw [hrk, hr2]⟩
        · intro q hq
          have hts : (((processedLines s).map Prod.fst).drop
                (hIdx + 2))[(scanRows (cellsOf (((processedLines s)[hIdx]?).getD ("", 0)).1).length
                  (((processedLines s).map Prod.fst).drop (hIdx + 2))).length]? =
              ((processedLines s)[hIdx + 2 +
                (scanRows (cellsOf (((processedLines s)[hIdx]?).getD ("", 0)).1).length
                  (((processedLines s).map Prod.fst).drop (hIdx + 2))).length]?).map Prod.fst := by
            rw [List.getElem?_drop, List.getElem?_map]
          apply (scanRows_spec (cellsOf (((processedLines s)[hIdx]?).getD ("", 0)).1).length hn2
            (((processedLines s).map Prod.fst).drop (hIdx + 2))).2 q.1
          rw [hts, hq]
          rfl

/-- Witness for parse_markdown_table_spec at a concrete response text. -/
theorem parse_markdown_table_spec_witness :
    ∃ i, pairAtB (processedLines "intro\n\n|a|b|\n| --- | --- |\n|1|2|\ntext") i = true ∧
      (∀ j, j < i →
        pairAtB (processedLines "intro\n\n|a|b|\n| --- | --- |\n|1|2|\ntext") j = false) ∧
      (∃ p, (processedLines "intro\n\n|a|b|\n| --- | --- |\n|1|2|\ntext")[i]? = some p ∧
        (⟨["a", "b"], [["1", "2"]]⟩ : MdTable).headers = cellsOf p.1 ∧
        1 ≤ (⟨["a", "b"], [["1", "2"]]⟩ : MdTable).headers.length) ∧
      (∀ k, k < (⟨["a", "b"], [["1", "2"]]⟩ : MdTable).rows.length →
        ∃ q, (processedLines "intro\n\n|a|b|\n| --- | --- |\n|1|2|\ntext")[i + 2 + k]? =
            some q ∧
          startsWithPipe q.1 = true ∧ endsWithPipe q.1 = true ∧
          countPipes q.1 = (⟨["a", "b"], [["1", "2"]]⟩ : MdTable).headers.length + 1 ∧
          (⟨["a", "b"], [["1", "2"]]⟩ : MdTable).rows[k]? = some (cellsOf q.1)) ∧
      (∀ q, (processedLines "intro\n\n|a|b|\n| --- | --- |\n|1|2|\ntext")[i + 2 +
          (⟨["a", "b"], [["1", "2"]]⟩ : MdTable).rows.length]? = some q →
        ¬(startsWithPipe q.1 = true ∧ endsWithPipe q.1 = true ∧
          countPipes q.1 = (⟨["a", "b"], [["1", "2"]]⟩ : MdTable).headers.length + 1)) :=
  (parse_markdown_table_spec "intro\n\n|a|b|\n| --- | --- |\n|1|2|\ntext").2
    ⟨["a", "b"], [["1", "2"]]⟩ (by decide)
